import Mathlib

/-!
Verification development for the background-effect rendering subsystem of
the compositor: the texture pyramid engine (render_helpers/blur.rs), the
effect buffer (render_helpers/effect_buffer.rs), the x-ray compositor
(render_helpers/xray.rs), the effect parameters
(render_helpers/background_effect.rs) and the layer-surface render path
(layer/mapped.rs).

Modelling conventions:
* GPU textures are handles carrying an identity, a pixel size and the value
  that `GlesTexture::is_unique_reference()` returns for them at the time
  they are inspected.  Texture sizes are `i32` in the source but are
  nonnegative in every use (they come from `create_buffer` sizes), so they
  are modelled as `Nat`.
* `f32` and `f64` quantities (scales, zoom factors, noise, saturation,
  blur offsets, logical rectangles) are modelled as `ℚ`.
* The renderer is modelled by its GPU context id together with a supply of
  fresh texture ids; `create_buffer` always succeeds (resource-allocation
  failure is not modelled), and GL draw calls are recorded as data instead
  of being executed.
* Damage tracking: a freshly created `OutputDamageTracker` reports full
  damage on its first render; for later renders, whether the pushed
  elements produce actual damage is supplied by a boolean oracle.
-/

namespace Niri

/-- Error enumeration covering the `ensure!` and `context` failures of the
modelled functions. -/
inductive GlesError where
  | wrong_renderer
  | wrong_textures_len
  | wrong_output_size
  | non_unique_output
  | missing_offscreen
  | missing_blur
  | blur_failed
deriving DecidableEq, Repr

/-- True when an `Except` value is an error. -/
def isErr {α : Type} : Except GlesError α → Bool
  | .error _ => true
  | .ok _ => false

/-- Rectangle as in smithay `Rectangle<N, Kind>`: a location and a size. -/
structure SRect (α : Type) where
  x : α
  y : α
  w : α
  h : α
deriving DecidableEq, Repr

/-- Smithay `Rectangle::overlaps`: strict overlap, touching edges do not
count as overlapping. -/
def SRect.overlaps {α : Type} [LinearOrder α] [Add α] (a b : SRect α) : Bool :=
  decide (a.x < b.x + b.w) && decide (b.x < a.x + a.w) &&
    decide (a.y < b.y + b.h) && decide (b.y < a.y + a.h)

/-- Smithay `Rectangle::intersection`: `None` unless the rectangles strictly
overlap, otherwise the rectangle between the componentwise extremities. -/
def SRect.intersection {α : Type} [LinearOrder α] [Add α] [Sub α] (a b : SRect α) :
    Option (SRect α) :=
  if a.overlaps b then
    some ⟨max a.x b.x, max a.y b.y,
      min (a.x + a.w) (b.x + b.w) - max a.x b.x,
      min (a.y + a.h) (b.y + b.h) - max a.y b.y⟩
  else none

/-- Smithay `Rectangle::from_size`: a rectangle at the origin. -/
def SRect.fromSize {α : Type} [Zero α] (w h : α) : SRect α := ⟨0, 0, w, h⟩

/-- Integer rectangle to rational rectangle (`Rectangle::to_f64`). -/
def SRect.to_f64 (r : SRect ℤ) : SRect ℚ := ⟨(r.x : ℚ), (r.y : ℚ), (r.w : ℚ), (r.h : ℚ)⟩

/-- Rectangle::to_buffer with Transform::Normal: scale the rectangle by the
buffer scale (the Normal transform leaves the rectangle in place). -/
def SRect.to_buffer_normal (r : SRect ℚ) (scale : ℚ × ℚ) : SRect ℚ :=
  ⟨r.x * scale.1, r.y * scale.2, r.w * scale.1, r.h * scale.2⟩

/-- CornerRadius from niri-config: four corner radii (f32 in the source). -/
structure CornerRadius where
  top_left : ℚ
  top_right : ℚ
  bottom_right : ℚ
  bottom_left : ℚ
deriving DecidableEq, Repr

/-- CornerRadius::default: all four radii zero. -/
def CornerRadius.default : CornerRadius := ⟨0, 0, 0, 0⟩

/-- CornerRadius::scaled_by. -/
def CornerRadius.scaled_by (c : CornerRadius) (s : ℚ) : CornerRadius :=
  ⟨c.top_left * s, c.top_right * s, c.bottom_right * s, c.bottom_left * s⟩

/-- Color32F: an RGBA color with f32 components. -/
structure Color32F where
  r : ℚ
  g : ℚ
  b : ℚ
  a : ℚ
deriving DecidableEq, Repr

/-- Blur section of niri-config (`niri_config::Blur`), restricted to the
fields this subsystem reads.  `passes` is an unsigned integer in the
source, clamped to the range 1 to 31 before use. -/
structure BlurConfig where
  off : Bool
  passes : Nat
  offset : ℚ
  noise : ℚ
  saturation : ℚ
deriving DecidableEq, Repr

/-- Default blur config (`niri_config::Blur::default()`).  The niri-config
crate is outside the excerpt; the claims never observe these values before
they are overwritten, so placeholder defaults are used. -/
def BlurConfig.default : BlurConfig :=
  { off := true, passes := 1, offset := 0, noise := 0, saturation := 1 }

/-- GPU texture handle (GlesTexture).  `unique` models the value that
`is_unique_reference()` returns for this handle at the time it is
inspected; freshly created textures are uniquely referenced.  Clones that
callers hold only transiently within a frame are reflected by the choice
of this field in the starting state of each theorem. -/
structure GlesTexture where
  id : Nat
  w : Nat
  h : Nat
  unique : Bool
deriving DecidableEq, Repr

/-- Renderer handle (GlesRenderer): its GPU context id, a supply of fresh
texture ids, and whether the optional blur shader compiled successfully
(`Shaders::get(renderer).blur.is_some()`). -/
structure GlesRenderer where
  context_id : Nat
  next_id : Nat
  has_blur_shader : Bool
deriving DecidableEq, Repr

/-- Offscreen::create_buffer: allocate a fresh, uniquely referenced texture.
Allocation failure is not modelled. -/
def GlesRenderer.create_buffer (r : GlesRenderer) (w h : Nat) : GlesTexture × GlesRenderer :=
  (⟨r.next_id, w, h, true⟩, { r with next_id := r.next_id + 1 })

/-- Texture pyramid engine (`Blur` in blur.rs).  The compiled shader
program is opaque and carried implicitly by the existence of the value. -/
structure Blur where
  renderer_context_id : Nat
  textures : List GlesTexture
  config : BlurConfig
deriving DecidableEq, Repr

/-- Blur::new: `None` when the blur shader is unavailable. -/
def Blur.new (r : GlesRenderer) : Option Blur :=
  if r.has_blur_shader then
    some { renderer_context_id := r.context_id, textures := [], config := BlurConfig.default }
  else none

/-- Blur::context_id. -/
def Blur.context_id (b : Blur) : Nat := b.renderer_context_id

/-- Rust `config.passes.clamp(1, 31)`. -/
def clampPasses (p : Nat) : Nat := max 1 (min p 31)

/-- Body of the `for i in 0..=passes` loop of Blur::prepare_textures: `n`
iterations remain, `i` is the current loop index and `w × h` the current
level size.  Existing entries are kept (the `continue` branch), missing
ones are created at the current size. -/
def Blur.createLoop (r : GlesRenderer) (ts : List GlesTexture) (w h i : Nat) :
    Nat → List GlesTexture × GlesRenderer
  | 0 => (ts, r)
  | n + 1 =>
    if ts.length > i then
      Blur.createLoop r ts (max 1 (w / 2)) (max 1 (h / 2)) (i + 1) n
    else
      Blur.createLoop (r.create_buffer w h).2 (ts ++ [(r.create_buffer w h).1])
        (max 1 (w / 2)) (max 1 (h / 2)) (i + 1) n

/-- Texture list kept by Blur::prepare_textures (blur.rs lines 292 to
306): cleared when the output entry mismatches the source size or is not
uniquely referenced. -/
def Blur.keptTextures (b : Blur) (source : GlesTexture) : List GlesTexture :=
  match b.textures with
  | [] => []
  | output :: rest =>
    if output.w ≠ source.w ∨ output.h ≠ source.h then []
    else if !output.unique then []
    else output :: rest

/-- Blur::prepare_textures (blur.rs lines 274 to 333): recreate the whole
chain when the output entry mismatches the source size or is not uniquely
referenced, create any missing levels, drop levels beyond `passes`. -/
def Blur.prepare_textures (b : Blur) (r : GlesRenderer) (source : GlesTexture)
    (config : BlurConfig) : Except GlesError (Blur × GlesRenderer) :=
  if r.context_id ≠ b.renderer_context_id then
    .error .wrong_renderer
  else
    .ok ({ b with
        config := config,
        textures := (Blur.createLoop r (b.keptTextures source) source.w source.h 0
          (clampPasses config.passes + 1)).1.take (clampPasses config.passes + 1) },
      (Blur.createLoop r (b.keptTextures source) source.w source.h 0
        (clampPasses config.passes + 1)).2)

/-- One blur pass of Blur::render: the source texture id rendered into the
destination texture id at the destination viewport size, with the
half-pixel uniform value. -/
structure BlurPass where
  src : Nat
  dst : Nat
  viewport_w : Nat
  viewport_h : Nat
  half_pixel_x : ℚ
  half_pixel_y : ℚ
deriving DecidableEq, Repr

/-- Downsample phase of Blur::render: source texture, then each level into
the next smaller one; the half-pixel uniform is half a destination
pixel. -/
def Blur.downPasses (source : GlesTexture) (ts : List GlesTexture) : List BlurPass :=
  (List.zip (source :: ts.drop 1) (ts.drop 1)).map fun sd =>
    ⟨sd.1.id, sd.2.id, sd.2.w, sd.2.h, 1 / (2 * (sd.2.w : ℚ)), 1 / (2 * (sd.2.h : ℚ))⟩

/-- Upsample phase of Blur::render: each level into the next larger one,
smallest first; the half-pixel uniform is half a source pixel. -/
def Blur.upPasses (ts : List GlesTexture) : List BlurPass :=
  (List.zip ts.reverse (ts.reverse.drop 1)).map fun sd =>
    ⟨sd.1.id, sd.2.id, sd.2.w, sd.2.h, 1 / (2 * (sd.1.w : ℚ)), 1 / (2 * (sd.1.h : ℚ))⟩

/-- Blur::render (blur.rs lines 335 to 521).  The GL work is modelled as
the list of executed blur passes; the saved and restored global GPU state
has no observable effect in the model.  On success the shared return value
is a clone of texture entry 0. -/
def Blur.render (b : Blur) (frame_context_id : Nat) (source : GlesTexture)
    (config : BlurConfig) : Except GlesError (GlesTexture × List BlurPass) :=
  if frame_context_id ≠ b.renderer_context_id then
    .error .wrong_renderer
  else
    let passes := clampPasses config.passes
    if b.textures.length ≠ passes + 1 then
      .error .wrong_textures_len
    else
      match b.textures.head? with
      | none => .error .wrong_textures_len
      | some output =>
        if output.w ≠ source.w ∨ output.h ≠ source.h then
          .error .wrong_output_size
        else if !output.unique then
          .error .non_unique_output
        else
          .ok (output, Blur.downPasses source b.textures ++ Blur.upPasses b.textures)

/-- Iterated half-size with a floor of one pixel, as computed level by
level in the creation loop of Blur::prepare_textures. -/
def halvePow : Nat → Nat → Nat
  | 0, w => w
  | j + 1, w => halvePow j (max 1 (w / 2))

/-- Boolean check that a texture list is the halving chain of sizes
starting at `w × h`. -/
def chainFromB (w h : Nat) : List GlesTexture → Bool
  | [] => true
  | t :: rest => t.w == w && t.h == h && chainFromB (max 1 (w / 2)) (max 1 (h / 2)) rest

/-- Invariant of Blur: the stored textures form the halving chain of their
own head size.  It holds for Blur::new (empty chain) and is preserved by
prepare_textures, which only builds such chains; render never changes the
list. -/
def Blur.Inv (b : Blur) : Bool :=
  match b.textures with
  | [] => true
  | t :: _ => chainFromB t.w t.h b.textures

/-- Textures created when the preparation loop runs past the end of the
existing list: a fresh halving chain starting at `w × h`. -/
def freshChain (r : GlesRenderer) (w h : Nat) : Nat → List GlesTexture × GlesRenderer
  | 0 => ([], r)
  | n + 1 =>
    ((r.create_buffer w h).1 ::
        (freshChain (r.create_buffer w h).2 (max 1 (w / 2)) (max 1 (h / 2)) n).1,
      (freshChain (r.create_buffer w h).2 (max 1 (w / 2)) (max 1 (h / 2)) n).2)

/-- Effect parameters (background_effect.rs `Parameters`). -/
structure Parameters where
  geometry : SRect ℚ
  window_geometry : SRect ℚ
  pos_in_backdrop : ℚ × ℚ
  zoom : ℚ
  corner_radius : CornerRadius
  scale : ℚ
  xray : Bool
  blur : Bool
  noise : Option ℚ
  saturation : Option ℚ
  clip_to_geometry : Bool
deriving DecidableEq, Repr

/-- Parameters::is_visible (background_effect.rs lines 34 to 39). -/
def Parameters.is_visible (p : Parameters) : Bool :=
  p.xray || p.blur ||
    (match p.noise with
     | some x => decide (0 < x)
     | none => false) ||
    (match p.saturation with
     | some x => decide (x ≠ 1)
     | none => false)

/-- Inner captured state of a BlurElement, created lazily on first use. -/
structure BlurElementInner where
  program : Bool
  framebuffer : GlesTexture
  blur : Blur
  blurred : Option GlesTexture
deriving DecidableEq, Repr

/-- Blur render element (blur.rs `BlurElement`).  The source stores the
inner state in an `Rc<RefCell<Option<..>>>`; the model carries the cell
contents directly. -/
structure BlurElement where
  id : Nat
  commit : Nat
  geometry : SRect ℚ
  window_geometry : SRect ℚ
  corner_radius : CornerRadius
  scale : ℚ
  config : BlurConfig
  inner : Option BlurElementInner
deriving DecidableEq, Repr

/-- Draw call issued through `frame.render_texture_from_to`. -/
structure DrawCall where
  texture : Nat
  src : SRect ℚ
  dst : SRect ℤ
  with_program : Bool
deriving DecidableEq, Repr

/-- BlurElement::draw (blur.rs lines 637 to 673): silently skip when the
inner state was never created or when no blurred result is cached;
otherwise draw the cached blurred texture.  `none` in the result means no
draw call was issued. -/
def BlurElement.draw (e : BlurElement) (dst : SRect ℤ) : Except GlesError (Option DrawCall) :=
  match e.inner with
  | none => .ok none
  | some inner =>
    match inner.blurred with
    | none => .ok none
    | some blurred =>
      .ok (some
        { texture := blurred.id,
          src := ⟨0, 0, (blurred.w : ℚ), (blurred.h : ℚ)⟩,
          dst := dst,
          with_program := inner.program })

/-- Offscreen state of an EffectBuffer (effect_buffer.rs `Offscreen`).
`damage_fresh` is true while the damage tracker has never rendered, in
which case its first render reports full damage. -/
structure Offscreen where
  texture : GlesTexture
  renderer_context_id : Nat
  scale : ℚ × ℚ
  damage_fresh : Bool
  blurred : Option GlesTexture
deriving DecidableEq, Repr

/-- Effect buffer (effect_buffer.rs `EffectBuffer`).  `elements_new` models
the `Elements::New` versus `Elements::Unchanged` states; the pushed element
contents themselves are abstracted into the damage oracle of prepare. -/
structure EffectBuffer where
  id : Nat
  size_w : Nat
  size_h : Nat
  scale : ℚ × ℚ
  blur_config : BlurConfig
  elements_new : Bool
  offscreen : Option Offscreen
  blur : Option Blur
  commit_counter : Nat
deriving DecidableEq, Repr

/-- EffectBuffer::new. -/
def EffectBuffer.new (id : Nat) : EffectBuffer :=
  { id := id, size_w := 0, size_h := 0, scale := (1, 1),
    blur_config := BlurConfig.default, elements_new := false,
    offscreen := none, blur := none, commit_counter := 0 }

/-- EffectBuffer::logical_size. -/
def EffectBuffer.logical_size (e : EffectBuffer) : ℚ × ℚ :=
  ((e.size_w : ℚ) / e.scale.1, (e.size_h : ℚ) / e.scale.2)

/-- EffectBuffer::update_size: physical size to buffer size is the identity
conversion in the source (`to_logical(1).to_buffer(1, Normal)`). -/
def EffectBuffer.update_size (e : EffectBuffer) (w h : Nat) (scale : ℚ × ℚ) : EffectBuffer :=
  { e with size_w := w, size_h := h, scale := scale }

/-- EffectBuffer::update_blur_config (effect_buffer.rs lines 114 to 127). -/
def EffectBuffer.update_blur_config (e : EffectBuffer) (config : BlurConfig) : EffectBuffer :=
  if e.blur_config = config then e
  else
    match e.offscreen with
    | some off =>
      if off.blurred.isSome then
        { e with
            blur_config := config,
            offscreen := some { off with blurred := none },
            commit_counter := e.commit_counter + 1 }
      else { e with blur_config := config }
    | none => { e with blur_config := config }

/-- EffectBuffer::elements: taking the element vector to push new content
switches the state to `New`. -/
def EffectBuffer.push_elements (e : EffectBuffer) : EffectBuffer :=
  { e with elements_new := true }

/-- Cached blurred texture of the offscreen, if any. -/
def EffectBuffer.cached_blurred (e : EffectBuffer) : Option GlesTexture :=
  e.offscreen.bind fun off => off.blurred

/-- Stage one of EffectBuffer::prepare_offscreen (effect_buffer.rs lines
164 to 193): drop the offscreen when its texture size, its uniqueness or
its renderer context no longer match. -/
def EffectBuffer.check_offscreen (e : EffectBuffer) (r : GlesRenderer) : EffectBuffer :=
  { e with offscreen :=
    match e.offscreen with
    | some off =>
      if off.texture.w ≠ e.size_w ∨ off.texture.h ≠ e.size_h then none
      else if !off.texture.unique then none
      else if off.renderer_context_id ≠ r.context_id then none
      else some off
    | none => none }

/-- Stage two of EffectBuffer::prepare_offscreen (lines 195 to 216): create
the offscreen texture and a fresh damage tracker when missing. -/
def EffectBuffer.ensure_offscreen (e : EffectBuffer) (r : GlesRenderer) :
    EffectBuffer × GlesRenderer :=
  match e.offscreen with
  | some _ => (e, r)
  | none =>
    ({ e with
        offscreen := some
          { texture := (r.create_buffer e.size_w e.size_h).1,
            renderer_context_id := r.context_id,
            scale := e.scale,
            damage_fresh := true,
            blurred := none } },
      (r.create_buffer e.size_w e.size_h).2)

/-- Stage three of EffectBuffer::prepare_offscreen (lines 218 to 229):
recreate the damage tracker, bump the commit counter and clear the blurred
cache when the scale changed under a surviving offscreen. -/
def EffectBuffer.apply_scale_change (e : EffectBuffer) : EffectBuffer :=
  match e.offscreen with
  | some off =>
    if off.scale ≠ e.scale then
      { e with
        offscreen := some { off with scale := e.scale, damage_fresh := true, blurred := none },
        commit_counter := e.commit_counter + 1 }
    else e
  | none => e

/-- Stage four of EffectBuffer::prepare_offscreen (lines 231 to 262): when
new elements are pending, render them through the damage tracker; actual
damage bumps the commit counter and clears the blurred cache.  A fresh
damage tracker reports full damage; otherwise the outcome depends on the
pushed elements and is supplied by the oracle. -/
def EffectBuffer.render_pending (e : EffectBuffer) (damage_oracle : Bool) : EffectBuffer :=
  if !e.elements_new then e
  else
    match e.offscreen with
    | some off =>
      { e with
        elements_new := false,
        offscreen := some { off with
          damage_fresh := false,
          blurred := if off.damage_fresh || damage_oracle then none else off.blurred },
        commit_counter :=
          if off.damage_fresh || damage_oracle then e.commit_counter + 1 else e.commit_counter }
    | none => e

/-- EffectBuffer::prepare_offscreen (effect_buffer.rs lines 161 to 263). -/
def EffectBuffer.prepare_offscreen (e : EffectBuffer) (r : GlesRenderer)
    (damage_oracle : Bool) : EffectBuffer × GlesRenderer :=
  ((((e.check_offscreen r).ensure_offscreen r).1.apply_scale_change).render_pending damage_oracle,
    ((e.check_offscreen r).ensure_offscreen r).2)

/-- Tail of EffectBuffer::prepare_blur: with the Blur stored, check the
offscreen context and run prepare_textures.  The Bool is success; as with
`&mut self` in the source, error paths leave the partially updated state
behind. -/
def EffectBuffer.prepare_blur_with (e : EffectBuffer) (r : GlesRenderer) (off : Offscreen)
    (b : Blur) : EffectBuffer × GlesRenderer × Bool :=
  if off.renderer_context_id ≠ r.context_id then ({ e with blur := some b }, r, false)
  else
    match b.prepare_textures r off.texture e.blur_config with
    | .ok br => ({ e with blur := some br.1 }, br.2, true)
    | .error _ => ({ e with blur := some b }, r, false)

/-- EffectBuffer::prepare_blur (effect_buffer.rs lines 265 to 298).  A
missing blur shader is not an error: the blur is simply left absent. -/
def EffectBuffer.prepare_blur (e : EffectBuffer) (r : GlesRenderer) :
    EffectBuffer × GlesRenderer × Bool :=
  match e.offscreen with
  | none => (e, r, false)
  | some off =>
    if off.blurred.isSome then (e, r, true)
    else
      let e1 :=
        match e.blur with
        | some b => if b.renderer_context_id ≠ r.context_id then { e with blur := none } else e
        | none => e
      match e1.blur with
      | some b => e1.prepare_blur_with r off b
      | none =>
        match Blur.new r with
        | none => (e1, r, true)
        | some b => e1.prepare_blur_with r off b

/-- EffectBuffer::prepare (effect_buffer.rs lines 142 to 159): `none`
models the `None` return on error. -/
def EffectBuffer.prepare (e : EffectBuffer) (r : GlesRenderer) (blur damage_oracle : Bool) :
    EffectBuffer × GlesRenderer × Option Bool :=
  let s := e.prepare_offscreen r damage_oracle
  if blur && !s.1.blur_config.off then
    let t := s.1.prepare_blur s.2
    (t.1, t.2.1, if t.2.2 then some true else none)
  else (s.1, s.2, some false)

/-- EffectBuffer::render (effect_buffer.rs lines 300 to 318).  On a
successful blur render, a clone of the pyramid output texture is cached as
the blurred texture and returned. -/
def EffectBuffer.render (e : EffectBuffer) (frame_context_id : Nat) (blur : Bool) :
    Except GlesError (EffectBuffer × GlesTexture) :=
  match e.offscreen with
  | none => .error .missing_offscreen
  | some off =>
    if !blur then .ok (e, off.texture)
    else
      match off.blurred with
      | some t => .ok (e, t)
      | none =>
        match e.blur with
        | none => .error .missing_blur
        | some b =>
          match b.render frame_context_id off.texture e.blur_config with
          | .error _ => .error .blur_failed
          | .ok tp => .ok ({ e with offscreen := some { off with blurred := some tp.1 } }, tp.1)

/-- Operations of an EffectBuffer considered by the commit-counter claim. -/
inductive BufOp where
  | update_size (w h : Nat) (scale : ℚ × ℚ)
  | update_blur_config (config : BlurConfig)
  | push_elements
  | prepare (blur damage_oracle : Bool)
deriving DecidableEq, Repr

/-- One EffectBuffer operation. -/
def EffectBuffer.step (e : EffectBuffer) (r : GlesRenderer) : BufOp → EffectBuffer × GlesRenderer
  | .update_size w h s => (e.update_size w h s, r)
  | .update_blur_config c => (e.update_blur_config c, r)
  | .push_elements => (e.push_elements, r)
  | .prepare b d => ((e.prepare r b d).1, (e.prepare r b d).2.1)

/-- A sequence of EffectBuffer operations. -/
def EffectBuffer.runOps (e : EffectBuffer) (r : GlesRenderer) :
    List BufOp → EffectBuffer × GlesRenderer
  | [] => (e, r)
  | op :: ops => ((e.step r op).1.runOps (e.step r op).2 ops)

/-- Scale-change trigger: prepare finds a surviving offscreen whose stored
scale differs from the buffer's current scale. -/
def EffectBuffer.scale_trigger (e : EffectBuffer) (r : GlesRenderer) : Bool :=
  match (e.check_offscreen r).offscreen with
  | some off => decide (off.scale ≠ e.scale)
  | none => false

/-- Damage trigger: prepare renders pending elements and the damage-tracked
render reports actual damage. -/
def EffectBuffer.damage_trigger (e : EffectBuffer) (r : GlesRenderer)
    (damage_oracle : Bool) : Bool :=
  (((e.check_offscreen r).ensure_offscreen r).1.apply_scale_change).elements_new &&
    (match (((e.check_offscreen r).ensure_offscreen r).1.apply_scale_change).offscreen with
     | some off => off.damage_fresh || damage_oracle
     | none => false)

/-- Blur-config drop trigger: a changed config while a blurred texture is
cached. -/
def EffectBuffer.config_drop_trigger (e : EffectBuffer) (config : BlurConfig) : Bool :=
  decide (e.blur_config ≠ config) && e.cached_blurred.isSome

/-- The events at which one EffectBuffer operation increments the commit
counter. -/
def EffectBuffer.op_trigger (e : EffectBuffer) (r : GlesRenderer) : BufOp → Bool
  | .update_size _ _ _ => false
  | .update_blur_config c => e.config_drop_trigger c
  | .push_elements => false
  | .prepare _ d => e.scale_trigger r || e.damage_trigger r d

/-- Affine map on the plane with a diagonal linear part, the shape of every
`input_to_geo` matrix built in xray.rs: `x` maps to `sx * x + tx`. -/
structure Affine2 where
  sx : ℚ
  sy : ℚ
  tx : ℚ
  ty : ℚ
deriving DecidableEq, Repr

/-- Mat3::from_scale with a diagonal scale vector. -/
def Affine2.scale2 (sx sy : ℚ) : Affine2 := ⟨sx, sy, 0, 0⟩

/-- Mat3::from_translation. -/
def Affine2.translate2 (tx ty : ℚ) : Affine2 := ⟨1, 1, tx, ty⟩

/-- Matrix product: `f.comp g` applies `g` first, matching `f * g` on
Mat3. -/
def Affine2.comp (f g : Affine2) : Affine2 :=
  ⟨f.sx * g.sx, f.sy * g.sy, f.sx * g.tx + f.tx, f.sy * g.ty + f.ty⟩

/-- Which of the two effect buffers an XrayElement samples. -/
inductive XrayBuffer where
  | background
  | backdrop
deriving DecidableEq, Repr

/-- Draw element emitted by Xray::render (xray.rs `XrayElement`).  The
`Rc<RefCell<EffectBuffer>>` handle is modelled by the buffer tag. -/
structure XrayElement where
  buffer : XrayBuffer
  id : Nat
  blur : Bool
  geometry : SRect ℚ
  src : SRect ℚ
  input_to_geo : Affine2
  geo_size : ℚ × ℚ
  corner_radius : CornerRadius
  scale : ℚ
  noise : ℚ
  saturation : ℚ
  bg_color : Color32F
  program : Bool
deriving DecidableEq, Repr

/-- X-ray compositor (xray.rs `Xray`). -/
structure Xray where
  background : EffectBuffer
  backdrop : EffectBuffer
  backdrop_color : Color32F
  workspaces : List (SRect ℚ × Color32F)
deriving DecidableEq, Repr

/-- Result of Xray::render: the pushed background elements in workspace
order, the backdrop element if pushed, and the updated state. -/
structure XrayRenderResult where
  bg_elems : List XrayElement
  backdrop_elem : Option XrayElement
  background : EffectBuffer
  backdrop : EffectBuffer
  renderer : GlesRenderer
deriving DecidableEq, Repr

/-- Background element built by the workspace loop of Xray::render
(xray.rs lines 102 to 144) for one workspace whose region intersects the
effect rectangle in backdrop space at `crop`. -/
def Xray.bg_elem_of (bg : EffectBuffer) (p : Parameters) (blurFlag program : Bool)
    (noise sat : ℚ) (win_pos : ℚ × ℚ) (ws : SRect ℚ × Color32F) (crop : SRect ℚ) :
    XrayElement :=
  let geo_size : ℚ × ℚ := (p.window_geometry.w, p.window_geometry.h)
  let buf_size := bg.logical_size
  let ws_zoom : ℚ × ℚ := (ws.1.w / buf_size.1, ws.1.h / buf_size.2)
  let src0 : SRect ℚ :=
    ⟨(crop.x - ws.1.x) / ws_zoom.1, (crop.y - ws.1.y) / ws_zoom.2,
      crop.w / ws_zoom.1, crop.h / ws_zoom.2⟩
  let pos_against_buf : ℚ × ℚ :=
    ((win_pos.1 - ws.1.x) / ws_zoom.1, (win_pos.2 - ws.1.y) / ws_zoom.2)
  { buffer := .background,
    id := bg.id,
    blur := blurFlag,
    geometry :=
      ⟨(crop.x - p.pos_in_backdrop.1) / p.zoom + p.geometry.x,
        (crop.y - p.pos_in_backdrop.2) / p.zoom + p.geometry.y,
        crop.w / p.zoom, crop.h / p.zoom⟩,
    src := src0.to_buffer_normal bg.scale,
    input_to_geo :=
      (Affine2.scale2 (ws_zoom.1 / p.zoom) (ws_zoom.2 / p.zoom)).comp
        ((Affine2.scale2 (buf_size.1 / geo_size.1) (buf_size.2 / geo_size.2)).comp
          (Affine2.translate2 (-(pos_against_buf.1 / buf_size.1))
            (-(pos_against_buf.2 / buf_size.2)))),
    geo_size := geo_size,
    corner_radius := p.corner_radius,
    scale := p.scale,
    noise := noise,
    saturation := sat,
    bg_color := ws.2,
    program := program }

/-- Noise uniform chosen in Xray::render: the params value, else the blur
config value when blur was applied, else no effect. -/
def xrayNoise (p : Parameters) (blurFlag : Bool) (cfg : BlurConfig) : ℚ :=
  match p.noise with
  | some n => n
  | none => if blurFlag then cfg.noise else 0

/-- Saturation uniform chosen in Xray::render: the params value, else the
blur config value when blur was applied, else no effect. -/
def xraySaturation (p : Parameters) (blurFlag : Bool) (cfg : BlurConfig) : ℚ :=
  match p.saturation with
  | some s => s
  | none => if blurFlag then cfg.saturation else 1

/-- Backdrop element of Xray::render (xray.rs lines 150 to 206). -/
def Xray.backdrop_elem_of (x : Xray) (bd : EffectBuffer) (p : Parameters)
    (blurFlag program : Bool) (geo_in_backdrop win_geo : SRect ℚ) : XrayElement :=
  let buf_size := bd.logical_size
  let geo_size : ℚ × ℚ := (win_geo.w, win_geo.h)
  { buffer := .backdrop,
    id := bd.id,
    blur := blurFlag,
    geometry := p.geometry,
    src := geo_in_backdrop.to_buffer_normal bd.scale,
    input_to_geo :=
      (Affine2.scale2 (buf_size.1 / geo_size.1) (buf_size.2 / geo_size.2)).comp
        (Affine2.translate2 (-(win_geo.x / buf_size.1)) (-(win_geo.y / buf_size.2))),
    geo_size := geo_size,
    corner_radius := p.corner_radius.scaled_by p.zoom,
    scale := p.scale,
    noise := xrayNoise p blurFlag bd.blur_config,
    saturation := xraySaturation p blurFlag bd.blur_config,
    bg_color := x.backdrop_color,
    program := program }

/-- Effect rectangle in backdrop space (xray.rs lines 65 to 68). -/
def Parameters.geo_in_backdrop (p : Parameters) : SRect ℚ :=
  ⟨p.pos_in_backdrop.1, p.pos_in_backdrop.2, p.geometry.w * p.zoom, p.geometry.h * p.zoom⟩

/-- Window position in backdrop space (xray.rs lines 69 to 70). -/
def Parameters.win_pos_in_backdrop (p : Parameters) : ℚ × ℚ :=
  (p.pos_in_backdrop.1 + (p.window_geometry.x - p.geometry.x) * p.zoom,
    p.pos_in_backdrop.2 + (p.window_geometry.y - p.geometry.y) * p.zoom)

/-- Window rectangle in backdrop space (xray.rs lines 71 to 74). -/
def Parameters.win_geo_in_backdrop (p : Parameters) : SRect ℚ :=
  ⟨p.win_pos_in_backdrop.1, p.win_pos_in_backdrop.2,
    p.window_geometry.w * p.zoom, p.window_geometry.h * p.zoom⟩

/-- Xray::render (xray.rs lines 57 to 207).  `postprocess_shader` models
`Shaders::get(renderer).postprocess_and_clip.is_some()`; the damage oracles
abstract the contents previously pushed into the two effect buffers. -/
def Xray.render (x : Xray) (r : GlesRenderer) (postprocess_shader : Bool) (p : Parameters)
    (bg_oracle bd_oracle : Bool) : XrayRenderResult :=
  let bg := (x.background.prepare r p.blur bg_oracle).1
  let r1 := (x.background.prepare r p.blur bg_oracle).2.1
  let bg_elems :=
    match (x.background.prepare r p.blur bg_oracle).2.2 with
    | none => []
    | some blurFlag =>
      x.workspaces.filterMap fun ws =>
        (ws.1.intersection p.geo_in_backdrop).map
          (Xray.bg_elem_of bg p blurFlag postprocess_shader
            (xrayNoise p blurFlag bg.blur_config) (xraySaturation p blurFlag bg.blur_config)
            p.win_pos_in_backdrop ws)
  let bd := (x.backdrop.prepare r1 p.blur bd_oracle).1
  let r2 := (x.backdrop.prepare r1 p.blur bd_oracle).2.1
  let bd_elem :=
    match (x.backdrop.prepare r1 p.blur bd_oracle).2.2 with
    | none => none
    | some blurFlag =>
      some (x.backdrop_elem_of bd p blurFlag postprocess_shader
        p.geo_in_backdrop p.win_geo_in_backdrop)
  { bg_elems := bg_elems, backdrop_elem := bd_elem,
    background := bg, backdrop := bd, renderer := r2 }

/-- Rectangle kind of a compositor region (smithay `RectangleKind`). -/
inductive RectKind where
  | add
  | subtract
deriving DecidableEq, Repr

/-- RegionAttributes: the rectangles of a compositor region. -/
structure RegionAttributes where
  rects : List (RectKind × SRect ℤ)
deriving DecidableEq, Repr

/-- Blur region of a surface (protocols/kde_blur.rs `KdeBlurRegion`). -/
inductive KdeBlurRegion where
  | whole_surface
  | region (attrs : RegionAttributes)
deriving DecidableEq, Repr

/-- Background-effect layer rules, restricted to the fields read by
MappedLayer::render_normal. -/
structure LayerEffectRules where
  blur : Option Bool
  xray : Option Bool
  noise : Option ℚ
  saturation : Option ℚ
deriving DecidableEq, Repr

/-- Blur-geometry computation of MappedLayer::render_normal (mapped.rs
lines 217 to 257).  Returns the `blur_geometry` local together with the
`blur` and `clip_to_geometry` flags chosen along the way; `area` is the
layer rectangle and `main` the main surface view geometry. -/
def MappedLayer.blur_geometry (effect_blur : Option Bool)
    (blur_region : Option KdeBlurRegion) (main : SRect ℤ) (area : SRect ℚ) :
    Option (SRect ℚ) × Bool × Bool :=
  match blur_region with
  | none => (some area, effect_blur == some true, true)
  | some reg =>
    let rgn : Option (SRect ℤ) :=
      match reg with
      | .whole_surface => some main
      | .region attrs =>
        (((attrs.rects.find? fun rk => rk.1 == RectKind.add).map fun rk => rk.2).bind
            fun rect => rect.intersection (SRect.fromSize main.w main.h)).map
          fun rect => { rect with x := rect.x + main.x, y := rect.y + main.y }
    match rgn with
    | some rgn =>
      (some { rgn.to_f64 with x := (rgn.x : ℚ) + area.x, y := (rgn.y : ℚ) + area.y },
        !(effect_blur == some false), false)
    | none => (none, effect_blur == some true, true)

/-- Background-effect tail of MappedLayer::render_normal (mapped.rs lines
217 to 283): the Parameters value passed to background_effect::render, or
`none` when the call is skipped and no background-effect element is
produced for the surface. -/
def MappedLayer.render_normal_effect (effect : LayerEffectRules)
    (blur_region : Option KdeBlurRegion) (main : SRect ℤ) (area : SRect ℚ)
    (pos_in_backdrop : ℚ × ℚ) (zoom : ℚ) (corner_radius : CornerRadius) (scale : ℚ) :
    Option Parameters :=
  match MappedLayer.blur_geometry effect.blur blur_region main area with
  | (none, _, _) => none
  | (some geometry, blurFlag, clip) =>
    let params : Parameters :=
      { geometry := geometry,
        window_geometry := area,
        pos_in_backdrop :=
          (pos_in_backdrop.1 + (geometry.x - area.x) * zoom,
            pos_in_backdrop.2 + (geometry.y - area.y) * zoom),
        zoom := zoom,
        corner_radius := corner_radius,
        scale := scale,
        xray := effect.xray == some true,
        blur := blurFlag,
        noise := effect.noise,
        saturation := effect.saturation,
        clip_to_geometry := clip }
    some (if params.is_visible && (effect.xray == none) then { params with xray := true }
      else params)

/-! Concrete states used by the closed instances of the theorems. -/

/-- Concrete fresh Blur bound to context 0. -/
def blurW : Blur := { renderer_context_id := 0, textures := [], config := BlurConfig.default }

/-- Concrete renderer on context 0 with the blur shader available. -/
def rendW : GlesRenderer := { context_id := 0, next_id := 10, has_blur_shader := true }

/-- Concrete 200 by 150 source texture. -/
def srcW : GlesTexture := { id := 99, w := 200, h := 150, unique := true }

/-- Concrete blur config asking for 40 passes. -/
def cfg40W : BlurConfig := { off := false, passes := 40, offset := 5, noise := 0, saturation := 1 }

/-- Concrete blur config asking for 2 passes. -/
def cfg2W : BlurConfig := { off := false, passes := 2, offset := 5, noise := 0, saturation := 1 }

/-- Result of preparing blurW for srcW with cfg40W. -/
def prep40W : Blur × GlesRenderer :=
  ((blurW.prepare_textures rendW srcW cfg40W).toOption).getD (blurW, rendW)

/-- Small 5 by 4 source texture. -/
def srcSmallW : GlesTexture := { id := 7, w := 5, h := 4, unique := true }

/-- Result of preparing blurW for srcSmallW with cfg2W. -/
def prep2W : Blur × GlesRenderer :=
  ((blurW.prepare_textures rendW srcSmallW cfg2W).toOption).getD (blurW, rendW)

/-- Concrete background effect buffer, 200 by 100. -/
def bgW : EffectBuffer :=
  { id := 1, size_w := 200, size_h := 100, scale := (1, 1),
    blur_config := BlurConfig.default, elements_new := false,
    offscreen := none, blur := none, commit_counter := 0 }

/-- Concrete backdrop effect buffer. -/
def bdW : EffectBuffer :=
  { id := 2, size_w := 200, size_h := 100, scale := (1, 1),
    blur_config := BlurConfig.default, elements_new := false,
    offscreen := none, blur := none, commit_counter := 0 }

/-- X-ray compositor with two side-by-side 100 by 100 workspaces. -/
def xrayW : Xray :=
  { background := bgW, backdrop := bdW, backdrop_color := ⟨0, 0, 0, 0⟩,
    workspaces := [(⟨0, 0, 100, 100⟩, ⟨0, 0, 0, 1⟩), (⟨100, 0, 100, 100⟩, ⟨0, 0, 0, 1⟩)] }

/-- Effect parameters whose backdrop-space rectangle straddles the two
workspaces of xrayW. -/
def paramsW : Parameters :=
  { geometry := ⟨0, 0, 40, 40⟩, window_geometry := ⟨0, 0, 40, 40⟩,
    pos_in_backdrop := (80, 10), zoom := 1, corner_radius := CornerRadius.default,
    scale := 1, xray := true, blur := false, noise := none, saturation := none,
    clip_to_geometry := true }

/-- Effect buffer holding a cached blurred texture. -/
def ebW : EffectBuffer :=
  { id := 3, size_w := 10, size_h := 10, scale := (1, 1),
    blur_config := BlurConfig.default, elements_new := false,
    offscreen := some
      { texture := ⟨1, 10, 10, true⟩, renderer_context_id := 0,
        scale := (1, 1), damage_fresh := false, blurred := some ⟨2, 10, 10, false⟩ },
    blur := none, commit_counter := 3 }

/-- Blur element whose capture never happened. -/
def belemW : BlurElement :=
  { id := 0, commit := 0, geometry := ⟨0, 0, 0, 0⟩, window_geometry := ⟨0, 0, 0, 0⟩,
    corner_radius := CornerRadius.default, scale := 1, config := BlurConfig.default,
    inner := none }

/-- Region with two rectangles, the second of kind Add. -/
def attrsW : RegionAttributes :=
  ⟨[(RectKind.subtract, ⟨0, 0, 5, 5⟩), (RectKind.add, ⟨2, 3, 10, 10⟩)]⟩

/-- Main surface geometry for the multi-rect example. -/
def mainW : SRect ℤ := ⟨1, 1, 20, 20⟩

/-- Layer effect rules with nothing explicitly set. -/
def rulesW : LayerEffectRules := ⟨none, none, none, none⟩

/-- Effect buffer with blur configured on and no blur program. -/
def ebNoShaderW : EffectBuffer :=
  { id := 4, size_w := 50, size_h := 50, scale := (1, 1),
    blur_config := cfg2W, elements_new := false,
    offscreen := none, blur := none, commit_counter := 0 }

/-- Renderer whose blur shader failed to compile. -/
def rendNoShaderW : GlesRenderer := { context_id := 4, next_id := 0, has_blur_shader := false }

/-- Effect buffer with a 100 by 100 offscreen texture already rendered. -/
def ebSizeW : EffectBuffer :=
  { id := 5, size_w := 100, size_h := 100, scale := (1, 1),
    blur_config := BlurConfig.default, elements_new := false,
    offscreen := some
      { texture := ⟨7, 100, 100, true⟩, renderer_context_id := 3,
        scale := (1, 1), damage_fresh := false, blurred := none },
    blur := none, commit_counter := 5 }

/-- Renderer matching ebSizeW's offscreen context. -/
def rendSizeW : GlesRenderer := { context_id := 3, next_id := 50, has_blur_shader := true }

/-- Sequence changing the size and preparing, with no elements pushed. -/
def opsSizeW : List BufOp := [.update_size 200 100 (1, 1), .prepare false false]

/-! Helper lemmas about the texture pyramid. -/

theorem halvePow_eq (j : Nat) : ∀ w : Nat, 1 ≤ w → halvePow j w = max 1 (w >>> j) := by
  induction j with
  | zero =>
    intro w hw
    simp only [halvePow, Nat.shiftRight_zero]
    omega
  | succ j ih =>
    intro w hw
    show halvePow j (max 1 (w / 2)) = max 1 (w >>> (j + 1))
    rw [ih (max 1 (w / 2)) (le_max_left 1 _)]
    rcases Nat.lt_or_ge w 2 with h2 | h2
    · have hw1 : w = 1 := by omega
      subst hw1
      have e0 : max 1 (1 / 2 : Nat) = 1 := rfl
      rw [e0]
      have h1 : (1 : Nat) >>> j ≤ 1 := by
        rw [Nat.shiftRight_eq_div_pow]; exact Nat.div_le_self _ _
      have h1' : (1 : Nat) >>> (j + 1) ≤ 1 := by
        rw [Nat.shiftRight_eq_div_pow]; exact Nat.div_le_self _ _
      omega
    · have hmax : max 1 (w / 2) = w / 2 := max_eq_right (by omega)
      rw [hmax, Nat.shiftRight_eq_div_pow, Nat.shiftRight_eq_div_pow,
        Nat.div_div_eq_div_mul]
      have e2 : (2 : Nat) * 2 ^ j = 2 ^ (j + 1) := by rw [pow_succ]; ring
      rw [e2]

theorem freshChain_fst_length : ∀ (n : Nat) (r : GlesRenderer) (w h : Nat),
    ((freshChain r w h n).1).length = n := by
  intro n
  induction n with
  | zero => intro r w h; rfl
  | succ n ih =>
    intro r w h
    simp only [freshChain, List.length_cons, ih]

theorem freshChain_getElem? : ∀ (n : Nat) (r : GlesRenderer) (w h j : Nat), j < n →
    ((freshChain r w h n).1)[j]? =
      some ⟨r.next_id + j, halvePow j w, halvePow j h, true⟩ := by
  intro n
  induction n with
  | zero => intro r w h j hj; omega
  | succ n ih =>
    intro r w h j hj
    match j with
    | 0 => simp [freshChain, GlesRenderer.create_buffer, halvePow]
    | j + 1 =>
      simp only [freshChain, List.getElem?_cons_succ]
      rw [ih _ _ _ j (by omega)]
      simp only [GlesRenderer.create_buffer]
      have : r.next_id + 1 + j = r.next_id + (j + 1) := by omega
      rw [this]
      rfl

theorem freshChain_snd : ∀ (n : Nat) (r : GlesRenderer) (w h : Nat),
    (freshChain r w h n).2 = { r with next_id := r.next_id + n } := by
  intro n
  induction n with
  | zero => intro r w h; rfl
  | succ n ih =>
    intro r w h
    simp only [freshChain, ih, GlesRenderer.create_buffer]
    have : r.next_id + 1 + n = r.next_id + (n + 1) := by omega
    rw [this]

theorem createLoop_spec : ∀ (n : Nat) (r : GlesRenderer) (ts : List GlesTexture) (w h i : Nat),
    i ≤ ts.length →
    Blur.createLoop r ts w h i n =
      if i + n ≤ ts.length then (ts, r)
      else
        (ts ++ (freshChain r (halvePow (ts.length - i) w) (halvePow (ts.length - i) h)
            (i + n - ts.length)).1,
          (freshChain r (halvePow (ts.length - i) w) (halvePow (ts.length - i) h)
            (i + n - ts.length)).2) := by
  intro n
  induction n with
  | zero =>
    intro r ts w h i hi
    rw [if_pos (by omega)]
    rfl
  | succ n ih =>
    intro r ts w h i hi
    rw [Blur.createLoop]
    by_cases hgt : ts.length > i
    · rw [if_pos hgt, ih r ts _ _ (i + 1) (by omega)]
      by_cases hle : i + (n + 1) ≤ ts.length
      · rw [if_pos (by omega), if_pos hle]
      · rw [if_neg (by omega), if_neg hle]
        have hk : ts.length - i = (ts.length - (i + 1)) + 1 := by omega
        have hc : i + 1 + n - ts.length = i + (n + 1) - ts.length := by omega
        rw [hk, hc]
        rfl
    · rw [if_neg hgt]
      have hlen : ts.length = i := by omega
      rw [hlen, if_neg (by omega)]
      have e4 : i - i = 0 := by omega
      have e3 : i + (n + 1) - i = n + 1 := by omega
      rw [e4, e3]
      rw [ih _ _ _ _ (i + 1) (by simp [hlen])]
      have hL : (ts ++ [(r.create_buffer w h).1]).length = i + 1 := by simp [hlen]
      rw [hL]
      have f1 : i + 1 - (i + 1) = 0 := by omega
      have f2 : i + 1 + n - (i + 1) = n := by omega
      rw [f1, f2]
      simp only [halvePow]
      rcases n with _ | m
      · rw [if_pos (by omega)]
        simp [freshChain]
      · rw [if_neg (by omega)]
        simp [freshChain, List.append_assoc]

theorem chainFromB_getElem? : ∀ (ts : List GlesTexture) (w h j : Nat) (t : GlesTexture),
    chainFromB w h ts = true → ts[j]? = some t →
      t.w = halvePow j w ∧ t.h = halvePow j h := by
  intro ts
  induction ts with
  | nil => intro w h j t _ hget; simp at hget
  | cons a rest ih =>
    intro w h j t hchain hget
    rw [chainFromB] at hchain
    simp only [Bool.and_eq_true, beq_iff_eq] at hchain
    match j with
    | 0 =>
      simp only [List.getElem?_cons_zero, Option.some.injEq] at hget
      subst hget
      exact ⟨hchain.1.1, hchain.1.2⟩
    | j + 1 =>
      simp only [List.getElem?_cons_succ] at hget
      exact ih _ _ j t hchain.2 hget

theorem halvePow_add : ∀ (a b w : Nat), halvePow (a + b) w = halvePow b (halvePow a w) := by
  intro a
  induction a with
  | zero =>
    intro b w
    rw [Nat.zero_add]
    rfl
  | succ a ih =>
    intro b w
    have e1 : a + 1 + b = (a + b) + 1 := by omega
    rw [e1]
    show halvePow (a + b) (max 1 (w / 2)) = halvePow b (halvePow (a + 1) w)
    rw [ih b (max 1 (w / 2))]
    rfl

theorem keptTextures_cons (b : Blur) (source : GlesTexture) (t0 : GlesTexture)
    (rest : List GlesTexture) (hk : b.keptTextures source = t0 :: rest) :
    b.textures = t0 :: rest ∧ t0.w = source.w ∧ t0.h = source.h ∧ t0.unique = true := by
  unfold Blur.keptTextures at hk
  split at hk
  · exact absurd hk (by simp)
  · next output rest' heq =>
    by_cases h1 : output.w ≠ source.w ∨ output.h ≠ source.h
    · rw [if_pos h1] at hk
      exact absurd hk (by simp)
    · rw [if_neg h1] at hk
      by_cases h2 : (!output.unique) = true
      · rw [if_pos h2] at hk
        exact absurd hk (by simp)
      · rw [if_neg h2] at hk
        push_neg at h1
        cases hk
        refine ⟨heq, h1.1, h1.2, ?_⟩
        simpa using h2

theorem prepare_textures_eq (b : Blur) (r : GlesRenderer) (source : GlesTexture)
    (config : BlurConfig) (hctx : r.context_id = b.renderer_context_id) :
    b.prepare_textures r source config =
      .ok ({ b with
          config := config,
          textures := (Blur.createLoop r (b.keptTextures source) source.w source.h 0
            (clampPasses config.passes + 1)).1.take (clampPasses config.passes + 1) },
        (Blur.createLoop r (b.keptTextures source) source.w source.h 0
          (clampPasses config.passes + 1)).2) := by
  unfold Blur.prepare_textures
  rw [if_neg (by simp [hctx])]

theorem prepare_textures_ok_context (b : Blur) (r : GlesRenderer) (source : GlesTexture)
    (config : BlurConfig) (b' : Blur) (r' : GlesRenderer)
    (hok : b.prepare_textures r source config = .ok (b', r')) :
    r.context_id = b.renderer_context_id := by
  by_contra hne
  rw [Blur.prepare_textures, if_pos hne] at hok
  exact Except.noConfusion hok

theorem prepare_textures_sizes (b : Blur) (r : GlesRenderer) (source : GlesTexture)
    (config : BlurConfig) (b' : Blur) (r' : GlesRenderer)
    (hinv : b.Inv = true) (hw : 1 ≤ source.w) (hh : 1 ≤ source.h)
    (hok : b.prepare_textures r source config = .ok (b', r')) :
    b'.textures.length = clampPasses config.passes + 1 ∧
      ∀ j, j < clampPasses config.passes + 1 →
        ∃ t, b'.textures[j]? = some t ∧
          t.w = max 1 (source.w >>> j) ∧ t.h = max 1 (source.h >>> j) := by
  have hctx := prepare_textures_ok_context b r source config b' r' hok
  rw [prepare_textures_eq b r source config hctx] at hok
  simp only [Except.ok.injEq, Prod.mk.injEq] at hok
  obtain ⟨hb, hr⟩ := hok
  subst hb
  rcases hk : b.keptTextures source with _ | ⟨t0, rest⟩
  · rw [createLoop_spec _ r [] source.w source.h 0 (by simp)]
    rw [if_neg (by simp)]
    simp only [List.length_nil, Nat.sub_zero, Nat.zero_add, List.nil_append, halvePow]
    rw [List.take_of_length_le (le_of_eq (freshChain_fst_length _ _ _ _))]
    refine ⟨freshChain_fst_length _ _ _ _, fun j hj => ?_⟩
    rw [freshChain_getElem? _ r source.w source.h j hj]
    exact ⟨_, rfl, halvePow_eq j source.w hw, halvePow_eq j source.h hh⟩
  · obtain ⟨hts, hw0, hh0, _⟩ := keptTextures_cons b source t0 rest hk
    have hchain : chainFromB source.w source.h (t0 :: rest) = true := by
      have hi := hinv
      unfold Blur.Inv at hi
      rw [hts] at hi
      simp only at hi
      rwa [hw0, hh0] at hi
    rw [createLoop_spec _ r (t0 :: rest) source.w source.h 0 (Nat.zero_le _)]
    simp only [Nat.zero_add, Nat.sub_zero]
    by_cases hNL : clampPasses config.passes + 1 ≤ (t0 :: rest).length
    · rw [if_pos hNL]
      refine ⟨by rw [List.length_take]; exact Nat.min_eq_left hNL, fun j hj => ?_⟩
      rw [List.getElem?_take_of_lt hj]
      have hjL : j < (t0 :: rest).length := by omega
      rw [List.getElem?_eq_getElem hjL]
      obtain ⟨h1, h2⟩ := chainFromB_getElem? (t0 :: rest) source.w source.h j _ hchain
        (List.getElem?_eq_getElem hjL)
      exact ⟨_, rfl, by rw [h1, halvePow_eq j source.w hw],
        by rw [h2, halvePow_eq j source.h hh]⟩
    · rw [if_neg hNL]
      have hlenfull :
          ((t0 :: rest) ++
            (freshChain r (halvePow (t0 :: rest).length source.w)
              (halvePow (t0 :: rest).length source.h)
              (clampPasses config.passes + 1 - (t0 :: rest).length)).1).length =
            clampPasses config.passes + 1 := by
        rw [List.length_append, freshChain_fst_length]
        omega
      rw [List.take_of_length_le (le_of_eq hlenfull)]
      refine ⟨hlenfull, fun j hj => ?_⟩
      by_cases hjL : j < (t0 :: rest).length
      · rw [List.getElem?_append_left hjL, List.getElem?_eq_getElem hjL]
        obtain ⟨h1, h2⟩ := chainFromB_getElem? (t0 :: rest) source.w source.h j _ hchain
          (List.getElem?_eq_getElem hjL)
        exact ⟨_, rfl, by rw [h1, halvePow_eq j source.w hw],
          by rw [h2, halvePow_eq j source.h hh]⟩
      · rw [List.getElem?_append_right (by omega)]
        rw [freshChain_getElem? _ r _ _ (j - (t0 :: rest).length) (by omega)]
        refine ⟨_, rfl, ?_, ?_⟩
        · show (halvePow (j - (t0 :: rest).length) (halvePow (t0 :: rest).length source.w)) = _
          rw [← halvePow_add, Nat.add_sub_cancel' (by omega), halvePow_eq j source.w hw]
        · show (halvePow (j - (t0 :: rest).length) (halvePow (t0 :: rest).length source.h)) = _
          rw [← halvePow_add, Nat.add_sub_cancel' (by omega), halvePow_eq j source.h hh]

theorem createLoop_renderer : ∀ (n : Nat) (r : GlesRenderer) (ts : List GlesTexture)
    (w h i : Nat),
    (Blur.createLoop r ts w h i n).2.context_id = r.context_id ∧
      (Blur.createLoop r ts w h i n).2.has_blur_shader = r.has_blur_shader := by
  intro n
  induction n with
  | zero => intro r ts w h i; exact ⟨rfl, rfl⟩
  | succ n ih =>
    intro r ts w h i
    rw [Blur.createLoop]
    by_cases hgt : ts.length > i
    · rw [if_pos hgt]
      exact ih r ts _ _ (i + 1)
    · rw [if_neg hgt]
      exact ih _ _ _ _ (i + 1)

theorem prepare_textures_post (b : Blur) (r : GlesRenderer) (source : GlesTexture)
    (config : BlurConfig) (b' : Blur) (r' : GlesRenderer)
    (hok : b.prepare_textures r source config = .ok (b', r')) :
    b'.renderer_context_id = b.renderer_context_id ∧
    b'.config = config ∧
    r'.context_id = r.context_id ∧
    b'.textures.length = clampPasses config.passes + 1 ∧
    ∃ t0 rest, b'.textures = t0 :: rest ∧ t0.w = source.w ∧ t0.h = source.h ∧
      t0.unique = true := by
  have hctx := prepare_textures_ok_context b r source config b' r' hok
  rw [prepare_textures_eq b r source config hctx] at hok
  simp only [Except.ok.injEq, Prod.mk.injEq] at hok
  obtain ⟨hb, hr⟩ := hok
  have hclamp : 1 ≤ clampPasses config.passes := le_max_left 1 _
  have hrc : r'.context_id = r.context_id := by
    rw [← hr]
    exact (createLoop_renderer _ _ _ _ _ _).1
  subst hb
  refine ⟨rfl, rfl, hrc, ?_⟩
  rcases hk : b.keptTextures source with _ | ⟨t0, rest⟩
  · rw [createLoop_spec _ r [] source.w source.h 0 (by simp), if_neg (by simp)]
    simp only [List.length_nil, Nat.sub_zero, Nat.zero_add, List.nil_append, halvePow]
    rw [List.take_of_length_le (le_of_eq (freshChain_fst_length _ _ _ _))]
    refine ⟨freshChain_fst_length _ _ _ _, ?_⟩
    have h0 : ((freshChain r source.w source.h (clampPasses config.passes + 1)).1)[0]? =
        some ⟨r.next_id + 0, halvePow 0 source.w, halvePow 0 source.h, true⟩ :=
      freshChain_getElem? _ r source.w source.h 0 (by omega)
    rcases hX : (freshChain r source.w source.h (clampPasses config.passes + 1)).1
      with _ | ⟨u, us⟩
    · rw [hX] at h0
      exact absurd h0 (by simp)
    · rw [hX, List.getElem?_cons_zero, Option.some.injEq] at h0
      exact ⟨u, us, rfl, by subst h0; rfl, by subst h0; rfl, by subst h0; rfl⟩
  · obtain ⟨hts, hw0, hh0, hu0⟩ := keptTextures_cons b source t0 rest hk
    rw [createLoop_spec _ r (t0 :: rest) source.w source.h 0 (Nat.zero_le _)]
    simp only [Nat.zero_add, Nat.sub_zero]
    by_cases hNL : clampPasses config.passes + 1 ≤ (t0 :: rest).length
    · rw [if_pos hNL]
      refine ⟨by rw [List.length_take]; exact Nat.min_eq_left hNL, ?_⟩
      rcases hX : (t0 :: rest).take (clampPasses config.passes + 1) with _ | ⟨u, us⟩
      · have : ((t0 :: rest).take (clampPasses config.passes + 1)).length =
            clampPasses config.passes + 1 := by
          rw [List.length_take]; exact Nat.min_eq_left hNL
        rw [hX] at this
        simp at this
      · have h0 : ((t0 :: rest).take (clampPasses config.passes + 1))[0]? = some t0 := by
          rw [List.getElem?_take_of_lt (by omega)]
          exact List.getElem?_cons_zero
        rw [hX, List.getElem?_cons_zero, Option.some.injEq] at h0
        exact ⟨u, us, rfl, by rw [h0, hw0], by rw [h0, hh0], by rw [h0, hu0]⟩
    · rw [if_neg hNL]
      have hlenfull :
          ((t0 :: rest) ++
            (freshChain r (halvePow (t0 :: rest).length source.w)
              (halvePow (t0 :: rest).length source.h)
              (clampPasses config.passes + 1 - (t0 :: rest).length)).1).length =
            clampPasses config.passes + 1 := by
        rw [List.length_append, freshChain_fst_length]
        omega
      rw [List.take_of_length_le (le_of_eq hlenfull)]
      exact ⟨hlenfull, t0,
        rest ++ (freshChain r (halvePow ((t0 :: rest).length) source.w)
          (halvePow ((t0 :: rest).length) source.h)
          (clampPasses config.passes + 1 - (t0 :: rest).length)).1,
        rfl, hw0, hh0, hu0⟩

/-- C6: calling Blur::prepare_textures twice in a row with the same source
texture and the same config performs no texture reallocation on the second
call: the resulting state, every texture entry included, and the renderer
are exactly those left by the first call. -/
theorem keptTextures_of_head (b : Blur) (source t0 : GlesTexture) (rest : List GlesTexture)
    (hts : b.textures = t0 :: rest) (hw : t0.w = source.w) (hh : t0.h = source.h)
    (hu : t0.unique = true) : b.keptTextures source = b.textures := by
  unfold Blur.keptTextures
  rw [hts]
  show (if t0.w ≠ source.w ∨ t0.h ≠ source.h then []
    else if !t0.unique then [] else t0 :: rest) = t0 :: rest
  rw [if_neg (by push_neg; exact ⟨hw, hh⟩), if_neg (by simp [hu])]

theorem prepare_textures_idempotent (b : Blur) (r : GlesRenderer) (source : GlesTexture)
    (config : BlurConfig) (b' : Blur) (r' : GlesRenderer)
    (hok : b.prepare_textures r source config = .ok (b', r')) :
    b'.prepare_textures r' source config = .ok (b', r') := by
  have hctx := prepare_textures_ok_context b r source config b' r' hok
  obtain ⟨hbc, hcfg, hrc, hlen, t0, rest, hts, hw0, hh0, hu0⟩ :=
    prepare_textures_post b r source config b' r' hok
  have hctx2 : r'.context_id = b'.renderer_context_id := by rw [hrc, hbc, hctx]
  rw [prepare_textures_eq b' r' source config hctx2]
  have hkept2 : b'.keptTextures source = b'.textures :=
    keptTextures_of_head b' source t0 rest hts hw0 hh0 hu0
  rw [hkept2]
  rw [createLoop_spec _ r' b'.textures source.w source.h 0 (Nat.zero_le _),
    if_pos (by omega)]
  rw [List.take_of_length_le (le_of_eq hlen)]
  have hbeq : { b' with config := config, textures := b'.textures } = b' := by
    rw [← hcfg]
  rw [hbeq]

theorem chainFromB_of_getElem? : ∀ (ts : List GlesTexture) (w h : Nat),
    (∀ j t, ts[j]? = some t → t.w = halvePow j w ∧ t.h = halvePow j h) →
    chainFromB w h ts = true := by
  intro ts
  induction ts with
  | nil => intro w h _; rfl
  | cons a rest ih =>
    intro w h hget
    rw [chainFromB]
    obtain ⟨h1, h2⟩ := hget 0 a List.getElem?_cons_zero
    simp only [Bool.and_eq_true, beq_iff_eq]
    refine ⟨⟨by simpa using h1, by simpa using h2⟩, ?_⟩
    apply ih
    intro j t hj
    have := hget (j + 1) t (by rwa [List.getElem?_cons_succ])
    simpa [halvePow] using this

/-- Blur::new establishes the pyramid invariant: the texture list starts
empty. -/
theorem blur_new_Inv (r : GlesRenderer) (b : Blur) (h : Blur.new r = some b) :
    b.Inv = true := by
  unfold Blur.new at h
  by_cases hs : r.has_blur_shader <;> simp [hs] at h
  rw [← h]
  rfl

/-- Blur::prepare_textures preserves the pyramid invariant (for the source
sizes that occur, namely at least one pixel in each dimension). -/
theorem prepare_textures_preserves_Inv (b : Blur) (r : GlesRenderer) (source : GlesTexture)
    (config : BlurConfig) (b' : Blur) (r' : GlesRenderer)
    (hinv : b.Inv = true) (hw : 1 ≤ source.w) (hh : 1 ≤ source.h)
    (hok : b.prepare_textures r source config = .ok (b', r')) :
    b'.Inv = true := by
  obtain ⟨hlen, hget⟩ := prepare_textures_sizes b r source config b' r' hinv hw hh hok
  have hchain : chainFromB source.w source.h b'.textures = true := by
    apply chainFromB_of_getElem?
    intro j t hj
    have hjlt : j < clampPasses config.passes + 1 := by
      by_contra hge
      rw [List.getElem?_eq_none (by omega)] at hj
      exact Option.noConfusion hj
    obtain ⟨t', ht', hw', hh'⟩ := hget j hjlt
    rw [hj, Option.some.injEq] at ht'
    subst ht'
    rw [hw', hh', halvePow_eq j source.w hw, halvePow_eq j source.h hh]
    exact ⟨rfl, rfl⟩
  obtain ⟨t0, rest, hts⟩ : ∃ t0 rest, b'.textures = t0 :: rest := by
    rcases hX : b'.textures with _ | ⟨t0, rest⟩
    · rw [hX] at hlen
      simp at hlen
    · exact ⟨t0, rest, rfl⟩
  have hget0 := hget 0 (by omega)
  obtain ⟨u, hu, huw, huh⟩ := hget0
  rw [hts, List.getElem?_cons_zero, Option.some.injEq] at hu
  unfold Blur.Inv
  rw [hts]
  simp only
  rw [← hu] at huw huh
  rw [hts] at hchain
  simp only [Nat.shiftRight_zero] at huw huh
  have hws : t0.w = source.w := by rw [huw]; omega
  have hhs : t0.h = source.h := by rw [huh]; omega
  rw [hws, hhs]
  exact hchain

/-- C1: for a source texture of size w × h with w, h at least one and any
configured pass count, a successful Blur::prepare_textures leaves exactly
clamp(passes, 1, 31) + 1 texture entries, entry j being sized
max(1, w >> j) × max(1, h >> j); in particular entry 0 keeps the source
size and a configured passes = 40 behaves as 31.  The invariant hypothesis
states that the stored list is the halving chain of its own head size; it
holds for every Blur produced by Blur::new and is preserved by
prepare_textures, and Blur::render never changes the list. -/
theorem prepare_textures_pyramid (b : Blur) (r : GlesRenderer) (source : GlesTexture)
    (config : BlurConfig) (b' : Blur) (r' : GlesRenderer)
    (hinv : b.Inv = true) (hw : 1 ≤ source.w) (hh : 1 ≤ source.h)
    (hok : b.prepare_textures r source config = .ok (b', r')) :
    b'.textures.length = clampPasses config.passes + 1 ∧
      ∀ j, j < clampPasses config.passes + 1 →
        ∃ t, b'.textures[j]? = some t ∧
          t.w = max 1 (source.w >>> j) ∧ t.h = max 1 (source.h >>> j) :=
  prepare_textures_sizes b r source config b' r' hinv hw hh hok

/-- C3: Parameters::is_visible is true exactly when the xray flag or blur
flag is set, noise is set positive, or saturation is set different from
one; in particular it is false when all four are unset and true when only
saturation is set to one half. -/
theorem is_visible_iff (p : Parameters) :
    p.is_visible = true ↔
      p.xray = true ∨ p.blur = true ∨ (∃ x, p.noise = some x ∧ 0 < x) ∨
        ∃ x, p.saturation = some x ∧ x ≠ 1 := by
  cases hx : p.xray <;> cases hb : p.blur <;> rcases hn : p.noise with _ | n <;>
    rcases hs : p.saturation with _ | s <;>
      simp [Parameters.is_visible, hx, hb, hn, hs]

theorem blur_render_err_context (b : Blur) (fc : Nat) (source : GlesTexture)
    (config : BlurConfig) (h : fc ≠ b.renderer_context_id) :
    b.render fc source config = .error .wrong_renderer := by
  unfold Blur.render
  rw [if_pos h]

theorem blur_render_err_len (b : Blur) (fc : Nat) (source : GlesTexture)
    (config : BlurConfig) (h1 : fc = b.renderer_context_id)
    (h2 : b.textures.length ≠ clampPasses config.passes + 1) :
    b.render fc source config = .error .wrong_textures_len := by
  unfold Blur.render
  rw [if_neg (by simp [h1]), if_pos h2]

theorem blur_render_eq_of_head (b : Blur) (fc : Nat) (source : GlesTexture)
    (config : BlurConfig) (t0 : GlesTexture) (h1 : fc = b.renderer_context_id)
    (h2 : b.textures.length = clampPasses config.passes + 1)
    (hX : b.textures.head? = some t0) :
    b.render fc source config =
      (if t0.w ≠ source.w ∨ t0.h ≠ source.h then .error .wrong_output_size
       else if !t0.unique then .error .non_unique_output
       else .ok (t0, Blur.downPasses source b.textures ++ Blur.upPasses b.textures)) := by
  unfold Blur.render
  rw [if_neg (by simp [h1]), if_neg (by simp [h2]), hX]

/-- C4: Blur::render returns an error, running no blur pass, whenever the
frame context differs from the creation context, the stored texture count
differs from clamp(passes, 1, 31) + 1, the output entry size differs from
the source size, or the output entry is not uniquely referenced; on
success the returned texture is (a shared clone of) entry 0. -/
theorem blur_render_checks (b : Blur) (fc : Nat) (source : GlesTexture)
    (config : BlurConfig) :
    ((fc ≠ b.renderer_context_id ∨
        b.textures.length ≠ clampPasses config.passes + 1 ∨
        (∃ t0, b.textures.head? = some t0 ∧ (t0.w ≠ source.w ∨ t0.h ≠ source.h)) ∨
        (∃ t0, b.textures.head? = some t0 ∧ t0.unique = false)) →
      isErr (b.render fc source config) = true) ∧
    ∀ t ps, b.render fc source config = .ok (t, ps) → b.textures.head? = some t := by
  by_cases h1 : fc = b.renderer_context_id
  · by_cases h2 : b.textures.length = clampPasses config.passes + 1
    · rcases hX : b.textures.head? with _ | t0
      · rw [List.head?_eq_none_iff] at hX
        rw [hX] at h2
        simp at h2
      · rw [blur_render_eq_of_head b fc source config t0 h1 h2 hX]
        constructor
        · intro hcond
          rcases hcond with hc | hc | ⟨u, hu, hc⟩ | ⟨u, hu, hc⟩
          · exact absurd h1 hc
          · exact absurd h2 hc
          · rw [Option.some.injEq] at hu
            subst hu
            rw [if_pos hc]
            rfl
          · rw [Option.some.injEq] at hu
            subst hu
            by_cases hsz : t0.w ≠ source.w ∨ t0.h ≠ source.h
            · rw [if_pos hsz]
              rfl
            · rw [if_neg hsz, if_pos (by simp [hc])]
              rfl
        · intro t ps hok
          by_cases hsz : t0.w ≠ source.w ∨ t0.h ≠ source.h
          · rw [if_pos hsz] at hok
            exact Except.noConfusion hok
          · rw [if_neg hsz] at hok
            by_cases huq : (!t0.unique) = true
            · rw [if_pos huq] at hok
              exact Except.noConfusion hok
            · rw [if_neg huq] at hok
              simp only [Except.ok.injEq, Prod.mk.injEq] at hok
              rw [hok.1]
    · rw [blur_render_err_len b fc source config h1 h2]
      exact ⟨fun _ => rfl, fun t ps h => Except.noConfusion h⟩
  · rw [blur_render_err_context b fc source config h1]
    exact ⟨fun _ => rfl, fun t ps h => Except.noConfusion h⟩

/-- C8: BlurElement::draw returns Ok and issues no draw call whenever the
inner captured state was never created (capture never happened, for
example because the element was culled) or no blurred result is cached
(for example after a blur-render error during capture); a missing capture
or blur result is never propagated as an error from draw. -/
theorem blur_element_draw_skips (e : BlurElement) (dst : SRect ℤ)
    (h : e.inner = none ∨ ∃ inner, e.inner = some inner ∧ inner.blurred = none) :
    e.draw dst = .ok none := by
  rcases h with h | ⟨inner, hi, hb⟩
  · simp [BlurElement.draw, h]
  · simp [BlurElement.draw, hi, hb]

/-- C9: in MappedLayer::render_normal, an explicit blur region with more
than one rectangle only honors the first rectangle of kind Add: the result
is the same as for a region containing just that rectangle, the blur
geometry equals that rectangle intersected with the main surface size
rectangle and then offset by the main surface location (and by the layer
area location, as for every blur geometry); when no Add rectangle exists
or the intersection is empty, no background-effect element is produced for
the surface. -/
theorem render_normal_multi_rect (effect : LayerEffectRules) (attrs : RegionAttributes)
    (main : SRect ℤ) (area : SRect ℚ) (pos : ℚ × ℚ) (zoom : ℚ) (cr : CornerRadius) (sc : ℚ)
    (_hlen : 2 ≤ attrs.rects.length) :
    (attrs.rects.find? (fun rk => rk.1 == RectKind.add) = none →
      MappedLayer.render_normal_effect effect (some (.region attrs)) main area pos zoom cr sc
        = none) ∧
    (∀ k rect, attrs.rects.find? (fun rk => rk.1 == RectKind.add) = some (k, rect) →
      MappedLayer.render_normal_effect effect (some (.region attrs)) main area pos zoom cr sc =
        MappedLayer.render_normal_effect effect (some (.region ⟨[(k, rect)]⟩)) main area pos
          zoom cr sc ∧
      (rect.intersection (SRect.fromSize main.w main.h) = none →
        MappedLayer.render_normal_effect effect (some (.region attrs)) main area pos zoom cr sc
          = none) ∧
      ∀ c, rect.intersection (SRect.fromSize main.w main.h) = some c →
        (MappedLayer.render_normal_effect effect (some (.region attrs)) main area pos zoom cr
            sc).map Parameters.geometry =
          some ⟨((c.x + main.x : ℤ) : ℚ) + area.x, ((c.y + main.y : ℤ) : ℚ) + area.y,
            (c.w : ℚ), (c.h : ℚ)⟩) := by
  constructor
  · intro hfind
    simp [MappedLayer.render_normal_effect, MappedLayer.blur_geometry, hfind]
  · intro k rect hfind
    have hk : k = RectKind.add := by
      have := List.find?_some hfind
      simpa using this
    subst hk
    refine ⟨?_, ?_, ?_⟩
    · simp [MappedLayer.render_normal_effect, MappedLayer.blur_geometry, hfind, List.find?]
    · intro hint
      simp [MappedLayer.render_normal_effect, MappedLayer.blur_geometry, hfind, hint]
    · intro c hint
      simp [MappedLayer.render_normal_effect, MappedLayer.blur_geometry, hfind, hint,
        SRect.to_f64, apply_ite]

/-- C7: EffectBuffer::update_blur_config is a no-op when the config equals
the stored one; otherwise it stores the new config, reallocates no
textures (the offscreen texture and the blur pyramid are untouched), and
clears the cached blurred texture while bumping the commit counter exactly
once iff a cached blurred texture existed at the time of the call. -/
theorem update_blur_config_spec (e : EffectBuffer) (config : BlurConfig) :
    (e.blur_config = config → e.update_blur_config config = e) ∧
    (e.blur_config ≠ config →
      (e.update_blur_config config).blur_config = config ∧
      (e.update_blur_config config).offscreen.map (fun o => o.texture) =
        e.offscreen.map (fun o => o.texture) ∧
      (e.update_blur_config config).blur = e.blur ∧
      (e.cached_blurred.isSome = true →
        (e.update_blur_config config).cached_blurred = none ∧
        (e.update_blur_config config).commit_counter = e.commit_counter + 1) ∧
      (e.cached_blurred.isSome = false →
        (e.update_blur_config config).offscreen = e.offscreen ∧
        (e.update_blur_config config).commit_counter = e.commit_counter)) := by
  constructor
  · intro h
    unfold EffectBuffer.update_blur_config
    rw [if_pos h]
  · intro h
    unfold EffectBuffer.update_blur_config EffectBuffer.cached_blurred
    rw [if_neg h]
    rcases ho : e.offscreen with _ | off
    · simp
    · by_cases hb : off.blurred.isSome
      · simp [hb]
      · simp [hb]

theorem ensure_offscreen_of_some (e : EffectBuffer) (r : GlesRenderer) (off : Offscreen)
    (h : e.offscreen = some off) : e.ensure_offscreen r = (e, r) := by
  unfold EffectBuffer.ensure_offscreen
  rw [h]

theorem ensure_offscreen_of_none (e : EffectBuffer) (r : GlesRenderer)
    (h : e.offscreen = none) :
    e.ensure_offscreen r =
      ({ e with
          offscreen := some
            { texture := (r.create_buffer e.size_w e.size_h).1,
              renderer_context_id := r.context_id,
              scale := e.scale,
              damage_fresh := true,
              blurred := none } },
        (r.create_buffer e.size_w e.size_h).2) := by
  unfold EffectBuffer.ensure_offscreen
  rw [h]

theorem check_offscreen_commit (e : EffectBuffer) (r : GlesRenderer) :
    (e.check_offscreen r).commit_counter = e.commit_counter := rfl

theorem check_offscreen_scale (e : EffectBuffer) (r : GlesRenderer) :
    (e.check_offscreen r).scale = e.scale := rfl

theorem check_offscreen_elements (e : EffectBuffer) (r : GlesRenderer) :
    (e.check_offscreen r).elements_new = e.elements_new := rfl

theorem check_offscreen_blur_config (e : EffectBuffer) (r : GlesRenderer) :
    (e.check_offscreen r).blur_config = e.blur_config := rfl

theorem check_offscreen_blur (e : EffectBuffer) (r : GlesRenderer) :
    (e.check_offscreen r).blur = e.blur := rfl

theorem render_pending_commit (e : EffectBuffer) (d : Bool) :
    (e.render_pending d).commit_counter =
      e.commit_counter +
        (if (e.elements_new &&
            match e.offscreen with
            | some off => off.damage_fresh || d
            | none => false) = true then 1 else 0) := by
  unfold EffectBuffer.render_pending
  by_cases hne : e.elements_new
  · rcases ho : e.offscreen with _ | off
    · simp [hne]
    · by_cases hd : (off.damage_fresh || d) = true
      · simp [hne, hd]
      · simp [hne, hd]
  · simp [hne]

theorem apply_scale_after_ensure_commit (e : EffectBuffer) (r : GlesRenderer) :
    ((((e.check_offscreen r).ensure_offscreen r).1).apply_scale_change).commit_counter =
      e.commit_counter + (if e.scale_trigger r then 1 else 0) := by
  unfold EffectBuffer.scale_trigger
  rcases hA : (e.check_offscreen r).offscreen with _ | off
  · rw [ensure_offscreen_of_none _ r hA]
    unfold EffectBuffer.apply_scale_change
    simp [check_offscreen_commit]
  · rw [ensure_offscreen_of_some _ r off hA]
    unfold EffectBuffer.apply_scale_change
    rw [hA, check_offscreen_scale]
    by_cases hs : off.scale ≠ e.scale
    · simp [hs, check_offscreen_commit]
    · simp [hs, check_offscreen_commit]

theorem prepare_offscreen_commit (e : EffectBuffer) (r : GlesRenderer) (d : Bool) :
    ((e.prepare_offscreen r d).1).commit_counter =
      e.commit_counter + (if e.scale_trigger r then 1 else 0) +
        (if e.damage_trigger r d then 1 else 0) := by
  unfold EffectBuffer.prepare_offscreen
  rw [render_pending_commit, apply_scale_after_ensure_commit]
  unfold EffectBuffer.damage_trigger
  rfl

theorem prepare_blur_with_commit (e : EffectBuffer) (r : GlesRenderer) (off : Offscreen)
    (b : Blur) : ((e.prepare_blur_with r off b).1).commit_counter = e.commit_counter := by
  unfold EffectBuffer.prepare_blur_with
  by_cases h : off.renderer_context_id ≠ r.context_id
  · simp [h]
  · rcases hp : b.prepare_textures r off.texture e.blur_config with err | ok <;> simp [h, hp]

theorem prepare_blur_commit (e : EffectBuffer) (r : GlesRenderer) :
    ((e.prepare_blur r).1).commit_counter = e.commit_counter := by
  unfold EffectBuffer.prepare_blur
  rcases ho : e.offscreen with _ | off
  · simp
  · by_cases hb : off.blurred.isSome
    · simp [hb]
    · rcases hbl : e.blur with _ | b
      · rcases hnew : Blur.new r with _ | nb
        · simp [hb, hbl, hnew]
        · simp [hb, hbl, hnew, prepare_blur_with_commit]
      · by_cases hctx : b.renderer_context_id ≠ r.context_id
        · rcases hnew : Blur.new r with _ | nb
          · simp [hb, hbl, hctx, hnew]
          · simp [hb, hbl, hctx, hnew, prepare_blur_with_commit]
        · simp [hb, hbl, hctx, prepare_blur_with_commit]

theorem prepare_commit (e : EffectBuffer) (r : GlesRenderer) (blur d : Bool) :
    ((e.prepare r blur d).1).commit_counter =
      e.commit_counter + (if e.scale_trigger r then 1 else 0) +
        (if e.damage_trigger r d then 1 else 0) := by
  unfold EffectBuffer.prepare
  by_cases hbl : (blur && !(e.prepare_offscreen r d).1.blur_config.off) = true
  · simp only [hbl, if_true]
    show ((((e.prepare_offscreen r d).1).prepare_blur
      ((e.prepare_offscreen r d).2)).1).commit_counter = _
    rw [prepare_blur_commit, prepare_offscreen_commit]
  · simp only [Bool.not_eq_true] at hbl
    simp only [hbl, Bool.false_eq_true, if_false]
    show (((e.prepare_offscreen r d).1)).commit_counter = _
    rw [prepare_offscreen_commit]

theorem step_commit (e : EffectBuffer) (r : GlesRenderer) (op : BufOp) :
    (e.commit_counter < ((e.step r op).1).commit_counter ↔ e.op_trigger r op = true) ∧
      e.commit_counter ≤ ((e.step r op).1).commit_counter := by
  cases op with
  | update_size w h sc =>
    simp [EffectBuffer.step, EffectBuffer.update_size, EffectBuffer.op_trigger]
  | push_elements =>
    simp [EffectBuffer.step, EffectBuffer.push_elements, EffectBuffer.op_trigger]
  | update_blur_config c =>
    simp only [EffectBuffer.step, EffectBuffer.op_trigger]
    unfold EffectBuffer.update_blur_config EffectBuffer.config_drop_trigger
      EffectBuffer.cached_blurred
    by_cases h : e.blur_config = c
    · simp [h]
    · rcases ho : e.offscreen with _ | off
      · simp [h, ho]
      · by_cases hbc : off.blurred.isSome
        · simp [h, ho, hbc]
        · simp [h, ho, hbc]
  | prepare b d =>
    simp only [EffectBuffer.step, EffectBuffer.op_trigger]
    rw [prepare_commit]
    rcases hs : e.scale_trigger r <;> rcases hd : e.damage_trigger r d <;>
      (simp [hs, hd]; try omega)

theorem runOps_commit_le (ops : List BufOp) : ∀ (e : EffectBuffer) (r : GlesRenderer),
    e.commit_counter ≤ ((e.runOps r ops).1).commit_counter := by
  induction ops with
  | nil => intro e r; exact le_refl _
  | cons op ops ih =>
    intro e r
    calc e.commit_counter ≤ ((e.step r op).1).commit_counter := (step_commit e r op).2
      _ ≤ _ := ih _ _

/-- C2 (amended): across any sequence of update_size, update_blur_config,
elements and prepare calls the commit counter never decreases, and a
single operation strictly increases it exactly when: the pending elements
are rendered with actual damage, the scale changed under a surviving
offscreen texture, or a blur-config change drops a cached blurred texture.
A size change alone does not increment the counter: recreating the
offscreen texture for the new size bumps the counter only indirectly,
through the full-damage redraw when elements are next rendered. -/
theorem commit_counter_monotone :
    (∀ (e : EffectBuffer) (r : GlesRenderer) (ops : List BufOp),
        e.commit_counter ≤ ((e.runOps r ops).1).commit_counter) ∧
      ∀ (e : EffectBuffer) (r : GlesRenderer) (op : BufOp),
        e.commit_counter < ((e.step r op).1).commit_counter ↔ e.op_trigger r op = true :=
  ⟨fun e r ops => runOps_commit_le ops e r, fun e r op => (step_commit e r op).1⟩

theorem ensure_offscreen_isSome (e : EffectBuffer) (r : GlesRenderer) :
    (((e.ensure_offscreen r).1).offscreen).isSome = true := by
  rcases ho : e.offscreen with _ | off
  · rw [ensure_offscreen_of_none _ r ho]
    rfl
  · rw [ensure_offscreen_of_some _ r off ho]
    simp [ho]

theorem ensure_offscreen_blur (e : EffectBuffer) (r : GlesRenderer) :
    ((e.ensure_offscreen r).1).blur = e.blur ∧
      ((e.ensure_offscreen r).1).blur_config = e.blur_config := by
  rcases ho : e.offscreen with _ | off
  · rw [ensure_offscreen_of_none _ r ho]
    exact ⟨rfl, rfl⟩
  · rw [ensure_offscreen_of_some _ r off ho]
    exact ⟨rfl, rfl⟩

theorem ensure_offscreen_cached (e : EffectBuffer) (r : GlesRenderer)
    (h : e.cached_blurred = none) : ((e.ensure_offscreen r).1).cached_blurred = none := by
  rcases ho : e.offscreen with _ | off
  · rw [ensure_offscreen_of_none _ r ho]
    rfl
  · rw [ensure_offscreen_of_some _ r off ho]
    exact h

theorem check_offscreen_cached (e : EffectBuffer) (r : GlesRenderer)
    (h : e.cached_blurred = none) : (e.check_offscreen r).cached_blurred = none := by
  unfold EffectBuffer.cached_blurred at h ⊢
  unfold EffectBuffer.check_offscreen
  rcases ho : e.offscreen with _ | off
  · simp
  · rw [ho] at h
    by_cases h1 : off.texture.w ≠ e.size_w ∨ off.texture.h ≠ e.size_h
    · simp [h1]
    · by_cases h2 : (!off.texture.unique) = true
      · simp [h1, h2]
      · by_cases h3 : off.renderer_context_id ≠ r.context_id
        · simp [h1, h2, h3]
        · simp [h1, h2, h3]
          simpa using h

theorem apply_scale_change_blur (e : EffectBuffer) :
    e.apply_scale_change.blur = e.blur ∧ e.apply_scale_change.blur_config = e.blur_config ∧
      (e.apply_scale_change.offscreen).isSome = (e.offscreen).isSome := by
  unfold EffectBuffer.apply_scale_change
  rcases ho : e.offscreen with _ | off
  · simp [ho]
  · by_cases hs : off.scale ≠ e.scale <;> simp [hs, ho]

theorem apply_scale_change_cached (e : EffectBuffer) (h : e.cached_blurred = none) :
    e.apply_scale_change.cached_blurred = none := by
  unfold EffectBuffer.cached_blurred at h ⊢
  unfold EffectBuffer.apply_scale_change
  rcases ho : e.offscreen with _ | off
  · simp [ho]
  · rw [ho] at h
    simp only [Option.some_bind] at h
    by_cases hs : off.scale ≠ e.scale
    · simp [hs, ho]
    · simp [hs, ho, h]

theorem render_pending_blur (e : EffectBuffer) (d : Bool) :
    (e.render_pending d).blur = e.blur ∧ (e.render_pending d).blur_config = e.blur_config ∧
      ((e.render_pending d).offscreen).isSome = (e.offscreen).isSome := by
  unfold EffectBuffer.render_pending
  by_cases hne : e.elements_new
  · rcases ho : e.offscreen with _ | off
    · simp [hne, ho]
    · simp [hne, ho]
  · simp [hne]

theorem render_pending_cached (e : EffectBuffer) (d : Bool) (h : e.cached_blurred = none) :
    (e.render_pending d).cached_blurred = none := by
  unfold EffectBuffer.cached_blurred at h ⊢
  unfold EffectBuffer.render_pending
  by_cases hne : e.elements_new
  · rcases ho : e.offscreen with _ | off
    · simp [hne, ho]
    · rw [ho] at h
      simp only [Option.some_bind] at h
      by_cases hd : (off.damage_fresh || d) = true <;> simp [hne, ho, hd, h]
  · simpa [hne] using h

theorem prepare_offscreen_fields (e : EffectBuffer) (r : GlesRenderer) (d : Bool) :
    ((e.prepare_offscreen r d).1).blur = e.blur ∧
      ((e.prepare_offscreen r d).1).blur_config = e.blur_config ∧
      (((e.prepare_offscreen r d).1).offscreen).isSome = true := by
  unfold EffectBuffer.prepare_offscreen
  obtain ⟨he1, he2⟩ := ensure_offscreen_blur (e.check_offscreen r) r
  obtain ⟨ha1, ha2, ha3⟩ := apply_scale_change_blur ((e.check_offscreen r).ensure_offscreen r).1
  obtain ⟨hr1, hr2, hr3⟩ :=
    render_pending_blur ((((e.check_offscreen r).ensure_offscreen r).1).apply_scale_change) d
  refine ⟨?_, ?_, ?_⟩
  · rw [hr1, ha1, he1, check_offscreen_blur]
  · rw [hr2, ha2, he2, check_offscreen_blur_config]
  · rw [hr3, ha3, ensure_offscreen_isSome]

theorem prepare_offscreen_cached (e : EffectBuffer) (r : GlesRenderer) (d : Bool)
    (h : e.cached_blurred = none) :
    ((e.prepare_offscreen r d).1).cached_blurred = none := by
  unfold EffectBuffer.prepare_offscreen
  exact render_pending_cached _ d (apply_scale_change_cached _
    (ensure_offscreen_cached _ r (check_offscreen_cached e r h)))

theorem prepare_offscreen_renderer (e : EffectBuffer) (r : GlesRenderer) (d : Bool) :
    ((e.prepare_offscreen r d).2).has_blur_shader = r.has_blur_shader ∧
      ((e.prepare_offscreen r d).2).context_id = r.context_id := by
  unfold EffectBuffer.prepare_offscreen
  rcases hA : (e.check_offscreen r).offscreen with _ | off
  · rw [ensure_offscreen_of_none _ r hA]
    exact ⟨rfl, rfl⟩
  · rw [ensure_offscreen_of_some _ r off hA]
    exact ⟨rfl, rfl⟩

theorem prepare_blur_no_shader (e : EffectBuffer) (r : GlesRenderer) (off : Offscreen)
    (ho : e.offscreen = some off) (hb : off.blurred = none) (hbl : e.blur = none)
    (hs : r.has_blur_shader = false) :
    e.prepare_blur r = (e, r, true) := by
  unfold EffectBuffer.prepare_blur Blur.new
  simp [ho, hb, hbl, hs]

theorem render_missing_blur (e : EffectBuffer) (fc : Nat) (off : Offscreen)
    (ho : e.offscreen = some off) (hb : off.blurred = none) (hbl : e.blur = none) :
    e.render fc true = .error .missing_blur := by
  unfold EffectBuffer.render
  simp [ho, hb, hbl]

/-- C10: when the blur shader is unavailable (Blur::new returns None)
while the blur config is not off, EffectBuffer::prepare with blur
requested nevertheless returns Some(true), reporting blur as applied; a
subsequent EffectBuffer::render with blur requested and no cached blurred
texture then returns an error (missing blur) rather than falling back to
the unblurred offscreen texture. -/
theorem prepare_blur_shader_missing (e : EffectBuffer) (r : GlesRenderer) (d : Bool) (fc : Nat)
    (hshader : r.has_blur_shader = false)
    (hoff : e.blur_config.off = false)
    (hblur : e.blur = none)
    (hcache : e.cached_blurred = none) :
    (e.prepare r true d).2.2 = some true ∧
      isErr (((e.prepare r true d).1).render fc true) = true := by
  obtain ⟨hf1, hf2, hf3⟩ := prepare_offscreen_fields e r d
  obtain ⟨off1, hoff1⟩ := Option.isSome_iff_exists.mp hf3
  have hb1 : off1.blurred = none := by
    have := prepare_offscreen_cached e r d hcache
    unfold EffectBuffer.cached_blurred at this
    rw [hoff1] at this
    simpa using this
  have hbl1 : ((e.prepare_offscreen r d).1).blur = none := by rw [hf1, hblur]
  have hsh1 : ((e.prepare_offscreen r d).2).has_blur_shader = false := by
    rw [(prepare_offscreen_renderer e r d).1, hshader]
  have hcond : (true && !((e.prepare_offscreen r d).1).blur_config.off) = true := by
    rw [hf2, hoff]
    rfl
  have hpb := prepare_blur_no_shader ((e.prepare_offscreen r d).1)
    ((e.prepare_offscreen r d).2) off1 hoff1 hb1 hbl1 hsh1
  have hprep : e.prepare r true d =
      ((e.prepare_offscreen r d).1, (e.prepare_offscreen r d).2, some true) := by
    unfold EffectBuffer.prepare
    simp only [hcond, if_true, hpb]
  rw [hprep]
  exact ⟨rfl, by rw [render_missing_blur _ fc off1 hoff1 hb1 hbl1]; rfl⟩

theorem length_filterMap_eq_countP {α β : Type} (f : α → Option β) (l : List α) :
    (l.filterMap f).length = l.countP fun a => (f a).isSome := by
  induction l with
  | nil => rfl
  | cons a l ih =>
    rw [List.filterMap_cons, List.countP_cons]
    rcases hf : f a with _ | b
    · simp [hf, ih]
    · simp [hf, ih]

theorem intersection_isSome {α : Type} [LinearOrder α] [Add α] [Sub α] (a b : SRect α) :
    (a.intersection b).isSome = a.overlaps b := by
  unfold SRect.intersection
  by_cases h : a.overlaps b <;> simp [h]

/-- C5: assuming the background EffectBuffer's prepare returned Some,
Xray::render pushes exactly one background element per registered
workspace whose region has a non-empty (strict) intersection with the
effect rectangle in backdrop space (located at pos_in_backdrop with the
effect geometry size scaled by zoom), and each element's geometry is that
intersection mapped back into local coordinates: a rectangle fully inside
one workspace yields one element, one straddling two adjacent workspaces
yields two. -/
theorem xray_render_background (x : Xray) (r : GlesRenderer) (sh : Bool) (p : Parameters)
    (o1 o2 : Bool) (flag : Bool)
    (hprep : (x.background.prepare r p.blur o1).2.2 = some flag) :
    (x.render r sh p o1 o2).bg_elems.length =
      x.workspaces.countP (fun ws => ws.1.overlaps p.geo_in_backdrop) ∧
    (x.render r sh p o1 o2).bg_elems.map (fun elem => elem.geometry) =
      (x.workspaces.filterMap fun ws =>
        (ws.1.intersection p.geo_in_backdrop).map fun crop =>
          (⟨(crop.x - p.pos_in_backdrop.1) / p.zoom + p.geometry.x,
            (crop.y - p.pos_in_backdrop.2) / p.zoom + p.geometry.y,
            crop.w / p.zoom, crop.h / p.zoom⟩ : SRect ℚ)) := by
  have hbg : (x.render r sh p o1 o2).bg_elems =
      x.workspaces.filterMap fun ws =>
        (ws.1.intersection p.geo_in_backdrop).map
          (Xray.bg_elem_of (x.background.prepare r p.blur o1).1 p flag sh
            (xrayNoise p flag ((x.background.prepare r p.blur o1).1).blur_config)
            (xraySaturation p flag ((x.background.prepare r p.blur o1).1).blur_config)
            p.win_pos_in_backdrop ws) := by
    unfold Xray.render
    simp only [hprep]
  rw [hbg]
  constructor
  · rw [length_filterMap_eq_countP]
    congr 1
    funext ws
    rw [← intersection_isSome ws.1 p.geo_in_backdrop]
    rcases ws.1.intersection p.geo_in_backdrop with _ | crop <;> rfl
  · rw [List.map_filterMap]
    congr 1
    funext ws
    rcases hc : ws.1.intersection p.geo_in_backdrop with _ | crop
    · rfl
    · simp [Xray.bg_elem_of]

/-- Closed instance of the C1 theorem: a 200 by 150 source with 40
configured passes yields 32 textures, the first one 200 by 150. -/
theorem prepare_textures_pyramid_witness :
    blurW.Inv = true ∧ 1 ≤ srcW.w ∧ 1 ≤ srcW.h ∧
      (prep40W.1.textures.length = clampPasses cfg40W.passes + 1 ∧
        ∀ j, j < clampPasses cfg40W.passes + 1 →
          ∃ t, prep40W.1.textures[j]? = some t ∧
            t.w = max 1 (srcW.w >>> j) ∧ t.h = max 1 (srcW.h >>> j)) :=
  ⟨by decide, by decide, by decide,
    prepare_textures_pyramid blurW rendW srcW cfg40W prep40W.1 prep40W.2
      (by decide) (by decide) (by decide) (by rfl)⟩

/-- C2 counterexample: a size change recreates the offscreen texture at
the new size (the buffer's observable output changes from the previous
100 by 100 texture to a fresh 200 by 100 texture) yet the commit counter
does not increase, contradicting the claim that the counter strictly
increases when the size changes. -/
theorem commit_counter_size_change_no_bump :
    ((ebSizeW.runOps rendSizeW opsSizeW).1).commit_counter = ebSizeW.commit_counter ∧
      ((ebSizeW.runOps rendSizeW opsSizeW).1).offscreen.map
        (fun o => (o.texture.w, o.texture.h)) = some (200, 100) ∧
      ebSizeW.offscreen.map (fun o => (o.texture.w, o.texture.h)) = some (100, 100) := by
  decide

/-- Closed instance of the C4 theorem: a never-prepared Blur (empty
texture list) makes render fail on the length check. -/
theorem blur_render_checks_witness :
    (0 ≠ blurW.renderer_context_id ∨
        blurW.textures.length ≠ clampPasses cfg2W.passes + 1 ∨
        (∃ t0, blurW.textures.head? = some t0 ∧ (t0.w ≠ srcW.w ∨ t0.h ≠ srcW.h)) ∨
        (∃ t0, blurW.textures.head? = some t0 ∧ t0.unique = false)) ∧
      isErr (blurW.render 0 srcW cfg2W) = true :=
  ⟨Or.inr (Or.inl (by decide)),
    (blur_render_checks blurW 0 srcW cfg2W).1 (Or.inr (Or.inl (by decide)))⟩

/-- Closed instance of the C5 theorem, at an effect rectangle straddling
the two adjacent workspaces of xrayW. -/
theorem xray_render_background_witness :
    (xrayW.background.prepare rendW paramsW.blur true).2.2 = some false ∧
      (xrayW.render rendW true paramsW true true).bg_elems.length =
        xrayW.workspaces.countP (fun ws => ws.1.overlaps paramsW.geo_in_backdrop) :=
  ⟨by rfl, (xray_render_background xrayW rendW true paramsW true true false (by rfl)).1⟩

/-- Closed instance of the C6 theorem: preparing a 5 by 4 source twice
with 2 passes returns the identical state the second time. -/
theorem prepare_textures_idempotent_witness :
    blurW.prepare_textures rendW srcSmallW cfg2W = .ok (prep2W.1, prep2W.2) ∧
      prep2W.1.prepare_textures prep2W.2 srcSmallW cfg2W = .ok (prep2W.1, prep2W.2) :=
  ⟨by rfl,
    prepare_textures_idempotent blurW rendW srcSmallW cfg2W prep2W.1 prep2W.2 (by rfl)⟩

/-- Closed instance of the C7 theorem: a config change with a cached
blurred texture clears the cache and bumps the commit counter once. -/
theorem update_blur_config_spec_witness :
    ebW.blur_config ≠ cfg2W ∧ ebW.cached_blurred.isSome = true ∧
      (ebW.update_blur_config cfg2W).cached_blurred = none ∧
      (ebW.update_blur_config cfg2W).commit_counter = ebW.commit_counter + 1 :=
  ⟨by decide, by decide,
    (((update_blur_config_spec ebW cfg2W).2 (by decide)).2.2.2.1 (by decide)).1,
    (((update_blur_config_spec ebW cfg2W).2 (by decide)).2.2.2.1 (by decide)).2⟩

/-- Closed instance of the C8 theorem: a blur element that never captured
draws nothing and reports Ok. -/
theorem blur_element_draw_skips_witness :
    (belemW.inner = none ∨ ∃ inner, belemW.inner = some inner ∧ inner.blurred = none) ∧
      belemW.draw ⟨0, 0, 10, 10⟩ = .ok none :=
  ⟨Or.inl (by rfl), blur_element_draw_skips belemW ⟨0, 0, 10, 10⟩ (Or.inl (by rfl))⟩

/-- Closed instance of the C9 theorem: with a Subtract rectangle before an
Add rectangle, the computation equals the one for the Add rectangle
alone. -/
theorem render_normal_multi_rect_witness :
    2 ≤ attrsW.rects.length ∧
      MappedLayer.render_normal_effect rulesW (some (.region attrsW)) mainW ⟨0, 0, 30, 30⟩
          (0, 0) 1 CornerRadius.default 1 =
        MappedLayer.render_normal_effect rulesW
          (some (.region ⟨[(RectKind.add, ⟨2, 3, 10, 10⟩)]⟩)) mainW ⟨0, 0, 30, 30⟩
          (0, 0) 1 CornerRadius.default 1 :=
  ⟨by decide,
    ((render_normal_multi_rect rulesW attrsW mainW ⟨0, 0, 30, 30⟩ (0, 0) 1
        CornerRadius.default 1 (by decide)).2 RectKind.add ⟨2, 3, 10, 10⟩ (by decide)).1⟩

/-- Closed instance of the C10 theorem: with the blur shader missing and
blur configured on, prepare reports Some true and render then fails. -/
theorem prepare_blur_shader_missing_witness :
    (rendNoShaderW.has_blur_shader = false ∧ ebNoShaderW.blur_config.off = false ∧
      ebNoShaderW.blur = none ∧ ebNoShaderW.cached_blurred = none) ∧
      (ebNoShaderW.prepare rendNoShaderW true false).2.2 = some true ∧
      isErr (((ebNoShaderW.prepare rendNoShaderW true false).1).render 4 true) = true :=
  ⟨⟨rfl, rfl, rfl, rfl⟩,
    prepare_blur_shader_missing ebNoShaderW rendNoShaderW false 4 rfl rfl rfl rfl⟩

end Niri
